import Mathlib

set_option maxHeartbeats 1000000
set_option maxRecDepth 10000
set_option linter.unusedVariables false
set_option exponentiation.threshold 2000

/-!
Verification development for the KooDyna LS-DYNA result analyzer.

This file is a shallow embedding of the Python sources under `src/koodyna/`:
the data model (`models.py`), the knowledge base (`knowledge/error_db.py`),
the analyzers (`analysis/energy.py`, `analysis/timestep.py`,
`analysis/warnings.py`), the diagnostics aggregator
(`analysis/diagnostics.py`), the multi-rank merge (`analyzer.py`,
`parsers/messag.py`) and the primary log parser (`parsers/d3hsp.py`).

Modelling conventions, applied uniformly:

* Python `float` is modelled as `Q` (exact rationals).  Every numeric value
  in the program enters through decimal/scientific literals in the input
  text, so all arithmetic performed by the code is exact on rationals; the
  thresholds (0.5, 0.8, ...) are exactly representable.  The single place
  where IEEE-754 semantics is observable — `float(s)` of an out-of-range
  literal yields `inf`, and `int(inf)` raises `OverflowError` — is modelled
  explicitly via `pyFloatOverflows` below.
* Python `dict` (insertion ordered) is modelled as an association list with
  first-occurrence lookup and in-place update (`pyGet`, `pySet`).
* Python `list.sort`/`sorted` (Timsort, a stable sort) is modelled by
  `List.insertionSort` with a non-strict key comparison, which is the
  (unique) stable sort for the same key order.
* The multi-paragraph free-text `description` and `recommendation` strings
  of `Finding`, `ErrorInfo` and `WarningEntry` carry no logic and no claim
  refers to their contents; they are carried as `""` in this embedding.
  The `severity`, `category` and `title` fields are modelled faithfully;
  where the source interpolates an `int` with `str` we use `toString`, and
  where it formats a `float` we use the explicit rendering `fmtQ` (digit
  strings of floats are not modelled).
-/

namespace Koodyna

/-- Severity enum from `models.py`. -/
inductive Severity where
  | CRITICAL
  | WARNING
  | INFO
deriving DecidableEq

/-- TerminationStatus enum from `models.py`. -/
inductive TerminationStatus where
  | NORMAL
  | ERROR
  | INCOMPLETE
deriving DecidableEq

/-- The universal diagnostic output unit (`models.py`, `Finding`).
`description` and `recommendation` are free text carried as `""` (see the
module conventions above). -/
structure Finding where
  severity : Severity := .INFO
  category : String := ""
  title : String := ""
  description : String := ""
  recommendation : String := ""
deriving DecidableEq

/-- Python `dict` lookup: the value at the first (unique) occurrence of the
key in the insertion-ordered association list. -/
def pyGet {κ ν : Type} [DecidableEq κ] (d : List (κ × ν)) (k : κ) : Option ν :=
  (d.find? (fun p => p.1 = k)).map (fun p => p.2)

/-- Python `dict` write `d[k] = v`: replace the value at the first
occurrence of `k`, keeping its position, or append a new binding. -/
def pySet {κ ν : Type} [DecidableEq κ] (d : List (κ × ν)) (k : κ) (v : ν) :
    List (κ × ν) :=
  match d with
  | [] => [(k, v)]
  | p :: rest => if p.1 = k then (k, v) :: rest else p :: pySet rest k v

/-- Python `d.get(k, dflt)`. -/
def pyGetD {κ ν : Type} [DecidableEq κ] (d : List (κ × ν)) (k : κ) (dflt : ν) : ν :=
  (pyGet d k).getD dflt

/-- Python `k in d`. -/
def pyMem {κ ν : Type} [DecidableEq κ] (d : List (κ × ν)) (k : κ) : Bool :=
  d.any (fun p => p.1 = k)

/-- Keys of a Python dict in insertion order. -/
def pyKeys {κ ν : Type} (d : List (κ × ν)) : List κ :=
  d.map (fun p => p.1)

/-! ### Exact rationals

Python floats are modelled by the exact rational type `Q` below, a reduced
fraction with positive denominator maintained by the smart constructor
`mkQ`.  (Mathlib's rational type is not used because its arithmetic
instances do not reduce in the kernel, which the concrete evaluations in
this file require.)  Division is total with junk value `0` at denominator
`0`; every division performed by the embedded code is guarded by a
positivity test in the source, so the junk value is unreachable.  Every
`Q` value constructed by the embedding is in reduced form, so structural
equality coincides with rational equality. -/

/-- Integer power of a natural base (via `Nat.pow`, which the kernel
evaluates on numerals directly). -/
def ipow (b : ℕ) (n : ℕ) : ℤ :=
  Int.ofNat (Nat.pow b n)

/-- An exact rational: numerator and (positive, coprime) denominator. -/
structure Q where
  num : ℤ
  den : ℤ
deriving DecidableEq

/-- Normalize a fraction: positive denominator, reduced by the gcd.
A zero denominator yields the junk value `0` (unreachable, see above). -/
def mkQ (n d : ℤ) : Q :=
  if d = 0 then ⟨0, 1⟩
  else
    let s : ℤ := if d < 0 then -1 else 1
    let n' := s * n
    let d' := s * d
    let g : ℤ := Int.ofNat (Nat.gcd n'.natAbs d'.natAbs)
    ⟨n'.div g, d'.div g⟩

instance (n : ℕ) : OfNat Q n := ⟨⟨Int.ofNat n, 1⟩⟩

instance : Neg Q := ⟨fun q => ⟨-q.num, q.den⟩⟩

/-- Decimal literals such as `0.50` or `1e-11` denote exact rationals. -/
instance : OfScientific Q :=
  ⟨fun m b e =>
    if b then mkQ (Int.ofNat m) (Int.ofNat (Nat.pow 10 e))
    else ⟨Int.ofNat (m * Nat.pow 10 e), 1⟩⟩

instance : Add Q := ⟨fun a b => mkQ (a.num * b.den + b.num * a.den) (a.den * b.den)⟩

instance : Sub Q := ⟨fun a b => mkQ (a.num * b.den - b.num * a.den) (a.den * b.den)⟩

instance : Mul Q := ⟨fun a b => mkQ (a.num * b.num) (a.den * b.den)⟩

instance : Div Q := ⟨fun a b => mkQ (a.num * b.den) (a.den * b.num)⟩

instance : LT Q := ⟨fun a b => a.num * b.den < b.num * a.den⟩

instance : LE Q := ⟨fun a b => a.num * b.den ≤ b.num * a.den⟩

instance (a b : Q) : Decidable (a < b) :=
  (inferInstanceAs (Decidable (a.num * b.den < b.num * a.den)))

instance (a b : Q) : Decidable (a ≤ b) :=
  (inferInstanceAs (Decidable (a.num * b.den ≤ b.num * a.den)))

instance : Min Q := ⟨fun a b => if a ≤ b then a else b⟩

instance : Max Q := ⟨fun a b => if b ≤ a then a else b⟩

/-- Integer to rational. -/
def Q.ofInt (n : ℤ) : Q := ⟨n, 1⟩

/-- Python `abs` on floats. -/
def qabs (q : Q) : Q :=
  if q.num < 0 then ⟨-q.num, q.den⟩ else q

/-- Rendering of a rational in interpolated strings.  Python formats IEEE
doubles here; we render the exact rational as `num/den` instead (no claim
depends on the rendered digits). -/
def fmtQ (q : Q) : String :=
  toString q.num ++ "/" ++ toString q.den

/-- Python `x or dflt` on floats: `0.0` is falsy. -/
def pyOrFloat (x dflt : Q) : Q :=
  if x = 0 then dflt else x

/-- Python truncation `int(x)` on a finite float: round toward zero
(`Int.div` truncates toward zero; the denominator is positive). -/
def pyTrunc (q : Q) : ℤ :=
  q.num.div q.den

/-- The IEEE-754 binary64 overflow bound `2^1024 - 2^970`. -/
def overflowBound : ℤ :=
  Int.ofNat (Nat.pow 2 1024 - Nat.pow 2 970)

/-- IEEE-754 binary64 overflow predicate: a decimal literal whose exact
value has magnitude at least `2^1024 - 2^970` is parsed by Python
`float(s)` (C `strtod`, round-to-nearest-even) as an infinity. -/
def pyFloatOverflows (q : Q) : Bool :=
  decide (Q.ofInt overflowBound ≤ qabs q)

/-- Exceptions the embedded code can raise. -/
inductive PyErr where
  | overflowError
  | valueError
deriving DecidableEq

instance {ε α : Type} [DecidableEq ε] [DecidableEq α] : DecidableEq (Except ε α) :=
  fun x y =>
    match x, y with
    | .ok a, .ok b =>
      if h : a = b then .isTrue (by rw [h])
      else .isFalse (by intro hh; cases hh; exact h rfl)
    | .error a, .error b =>
      if h : a = b then .isTrue (by rw [h])
      else .isFalse (by intro hh; cases hh; exact h rfl)
    | .ok _, .error _ => .isFalse (by intro hh; cases hh)
    | .error _, .ok _ => .isFalse (by intro hh; cases hh)

/-- Python `int(x)` on a float: raises `OverflowError` on an infinity
(modelled: on a literal value past the binary64 overflow threshold),
otherwise truncates toward zero. -/
def pyIntOfFloat (q : Q) : Except PyErr ℤ :=
  if pyFloatOverflows q then .error .overflowError else .ok (pyTrunc q)

/-! ### Stable sort by severity (diagnostics.py, final ordering)

The source sorts with `all_findings.sort(key=lambda f: severity_order.get(f.severity, 3))`
where `severity_order = {CRITICAL: 0, WARNING: 1, INFO: 2}`.  Python's sort
is a stable sort by this key; `List.insertionSort` with the non-strict key
comparison below computes exactly the stable sort by the same key. -/

/-- The severity rank used as the sort key: `severity_order.get(f.severity, 3)`.
The dict covers every constructor, so the default `3` is unreachable. -/
def sevRank (f : Finding) : ℕ :=
  match f.severity with
  | .CRITICAL => 0
  | .WARNING => 1
  | .INFO => 2

/-- Non-strict comparison of findings by severity rank. -/
def sevLe (a b : Finding) : Prop :=
  sevRank a ≤ sevRank b

instance : DecidableRel sevLe := fun _ _ => (inferInstance : Decidable (_ ≤ _))

instance : IsTotal Finding sevLe := ⟨fun a b => Nat.le_total (sevRank a) (sevRank b)⟩

instance : IsTrans Finding sevLe := ⟨fun _ _ _ => Nat.le_trans⟩

/-- Model of `all_findings.sort(key=lambda f: severity_order.get(f.severity, 3))`:
the stable sort of the finding list by severity rank. -/
def pySortFindings (l : List Finding) : List Finding :=
  List.insertionSort sevLe l

theorem pySortFindings_sorted (l : List Finding) :
    List.Sorted sevLe (pySortFindings l) :=
  List.sorted_insertionSort sevLe l

theorem orderedInsert_filter_rank (a : Finding) (l : List Finding) (k : ℕ) :
    (List.orderedInsert sevLe a l).filter (fun f => sevRank f = k) =
      if sevRank a = k then a :: l.filter (fun f => sevRank f = k)
      else l.filter (fun f => sevRank f = k) := by
  induction l with
  | nil =>
    by_cases h : sevRank a = k <;> simp [List.orderedInsert, List.filter, h]
  | cons b rest ih =>
    by_cases hab : sevLe a b
    · by_cases h : sevRank a = k <;>
        simp [List.orderedInsert, hab, List.filter, h]
    · have hba : sevRank b < sevRank a := by
        simpa [sevLe, Nat.lt_iff_le_and_ne, Nat.not_le] using hab
      by_cases h : sevRank a = k
      · have hbk : ¬ (sevRank b = k) := by omega
        simp [List.orderedInsert, hab, List.filter, hbk, ih, h]
      · by_cases hbk : sevRank b = k <;>
          simp [List.orderedInsert, hab, List.filter, hbk, ih, h]

/-- Stability of the model sort: for each severity rank, the subsequence of
findings of that rank is exactly the pre-sort subsequence, in order. -/
theorem pySortFindings_stable (l : List Finding) (k : ℕ) :
    (pySortFindings l).filter (fun f => sevRank f = k) =
      l.filter (fun f => sevRank f = k) := by
  induction l with
  | nil => rfl
  | cons a rest ih =>
    simp only [pySortFindings, List.insertionSort] at ih ⊢
    rw [orderedInsert_filter_rank]
    by_cases h : sevRank a = k <;> simp [List.filter, h, ih]

theorem pySortFindings_perm (l : List Finding) :
    (pySortFindings l).Perm l :=
  List.perm_insertionSort sevLe l

/-! ### Data model (models.py) -/

/-- Run metadata (`models.py`, `SimulationHeader`). -/
structure SimulationHeader where
  version : String := ""
  revision : String := ""
  date : String := ""
  time : String := ""
  platform : String := ""
  os_level : String := ""
  compiler : String := ""
  hostname : String := ""
  precision : String := ""
  input_file : String := ""
  licensee : String := ""
  num_procs : ℤ := 0
deriving DecidableEq

/-- Model size counters (`models.py`, `ModelSize`). -/
structure ModelSize where
  num_materials : ℤ := 0
  num_nodes : ℤ := 0
  num_solid_elements : ℤ := 0
  num_shell_elements : ℤ := 0
  num_beam_elements : ℤ := 0
  num_thick_shell_elements : ℤ := 0
  num_sph_particles : ℤ := 0
  num_contacts : ℤ := 0
  num_spc_nodes : ℤ := 0
  num_parts : ℤ := 0
deriving DecidableEq

/-- Termination record (`models.py`, `TerminationInfo`). -/
structure TerminationInfo where
  status : TerminationStatus := .INCOMPLETE
  target_time : Q := 0
  actual_time : Q := 0
  total_cycles : ℤ := 0
  total_cpu_seconds : Q := 0
  elapsed_seconds : Q := 0
  cpu_per_zone_cycle_ns : Q := 0
  clock_per_zone_cycle_ns : Q := 0
  start_datetime : String := ""
  end_datetime : String := ""
  error_code : Option ℤ := none
  error_message : Option String := none
deriving DecidableEq

/-- Per-code warning record (`models.py`, `WarningEntry`); `message` and
`recommendation` are free text carried as `""`. -/
structure WarningEntry where
  code : ℤ := 0
  count : ℤ := 0
  message : String := ""
  severity : Severity := .WARNING
  recommendation : String := ""
  affected_interfaces : List ℤ := []
  sample_details : List String := []
deriving DecidableEq

/-- One energy block record (`models.py`, `EnergySnapshot`). -/
structure EnergySnapshot where
  cycle : ℤ := 0
  time : Q := 0
  timestep : Q := 0
  kinetic : Q := 0
  internal : Q := 0
  spring_damper : Q := 0
  hourglass : Q := 0
  system_damping : Q := 0
  sliding_interface : Q := 0
  external_work : Q := 0
  eroded_kinetic : Q := 0
  eroded_internal : Q := 0
  eroded_hourglass : Q := 0
  total : Q := 0
  energy_ratio : Q := 1
  energy_ratio_no_eroded : Q := 1
  global_velocity : Q × Q × Q := (0, 0, 0)
  controlling_element_type : String := ""
  controlling_element : ℤ := 0
  controlling_part : ℤ := 0
  time_per_zone_ns : ℤ := 0
deriving DecidableEq

/-- Derived energy metrics (`models.py`, `EnergyAnalysis`). -/
structure EnergyAnalysis where
  snapshots : List EnergySnapshot := []
  initial_total_energy : Q := 0
  final_total_energy : Q := 0
  max_hourglass_ratio : Q := 0
  max_sliding_ratio : Q := 0
  energy_ratio_range : Q × Q := (1, 1)
  findings : List Finding := []
deriving DecidableEq

/-- One row of the 100-smallest-timesteps table (`models.py`,
`TimestepEntry`). -/
structure TimestepEntry where
  element_type : String := ""
  element_number : ℤ := 0
  part_number : ℤ := 0
  timestep : Q := 0
  processor_id : ℤ := -1
deriving DecidableEq

/-- Derived timestep metrics (`models.py`, `TimestepAnalysis`). -/
structure TimestepAnalysis where
  smallest_timesteps : List TimestepEntry := []
  controlling_parts : List (ℤ × ℤ) := []
  initial_dt : Q := 0
  final_dt : Q := 0
  min_dt : Q := 0
  dt_scale_factor : Q := 0
  dt2ms : Q := 0
  tsmin : Q := 0
  findings : List Finding := []
deriving DecidableEq

/-- Part record (`models.py`, `PartDefinition`). -/
structure PartDefinition where
  part_id : ℤ := 0
  name : String := ""
  section_id : ℤ := 0
  material_id : ℤ := 0
  material_type : ℤ := 0
  material_type_name : String := ""
  eos_type : ℤ := 0
  hourglass_type : ℤ := 0
  density : Q := 0
  youngs_modulus : Q := 0
  poisson_ratio : Q := 0
  hourglass_coefficient : Q := 0
  solid_formulation : ℤ := 0
  section_title : String := ""
  material_title : String := ""
deriving DecidableEq

/-- Timing-table row (`models.py`, `PerformanceTiming`). -/
structure PerformanceTiming where
  component : String := ""
  cpu_seconds : Q := 0
  cpu_percent : Q := 0
  clock_seconds : Q := 0
  clock_percent : Q := 0
deriving DecidableEq

/-- Per-interface contact timing (`models.py`, `ContactTiming`). -/
structure ContactTiming where
  interface_id : ℤ := 0
  cpu_seconds : Q := 0
  cpu_percent : Q := 0
  clock_seconds : Q := 0
  clock_percent : Q := 0
deriving DecidableEq

/-- Per-processor CPU share (`models.py`, `MPPProcessorTiming`). -/
structure MPPProcessorTiming where
  processor_id : ℤ := 0
  hostname : String := ""
  cpu_ratio : Q := 0
  cpu_seconds : Q := 0
deriving DecidableEq

/-- Contact summary row (`models.py`, `ContactDefinition`).  The source
field `type_prefix` is renamed `type_pfx` here. -/
structure ContactDefinition where
  order : ℤ := 0
  contact_id : ℤ := 0
  type_code : String := ""
  type_number : ℤ := 0
  type_pfx : String := ""
  title : String := ""
deriving DecidableEq

/-- Interface surface timestep row (`models.py`,
`InterfaceSurfaceTimestep`). -/
structure InterfaceSurfaceTimestep where
  interface_id : ℤ := 0
  surface : String := ""
  type_code : String := ""
  surface_timestep : Q := 0
  controlling_node_id : ℤ := 0
  part_id : ℤ := 0
  is_active : Bool := true
deriving DecidableEq

/-- Decomposition cost metrics (`models.py`, `DecompMetrics`). -/
structure DecompMetrics where
  min_cost : Q := 0
  max_cost : Q := 0
  std_deviation : Q := 0
  decomp_memory : ℤ := 0
  dynamic_memory : ℤ := 0
deriving DecidableEq

/-- Per-part mass properties (`models.py`, `MassProperty`). -/
structure MassProperty where
  part_id : ℤ := 0
  total_mass : Q := 0
  cx : Q := 0
  cy : Q := 0
  cz : Q := 0
  i11 : Q := 0
  i22 : Q := 0
  i33 : Q := 0
deriving DecidableEq

/-! ### Knowledge base (knowledge/error_db.py) -/

/-- Knowledge-base record (`error_db.py`, `ErrorInfo`); `description` and
`recommendation` are free text, carried as `""` for the static table and
built faithfully for the synthesized branch of `lookup_error`. -/
structure ErrorInfo where
  code : ℤ
  severity : Severity
  title : String
  description : String := ""
  recommendation : String := ""
deriving DecidableEq

/-- The static code table `ERROR_DATABASE` (codes, severities and titles as
in the source; prose elided). -/
def ERROR_DATABASE : List (ℤ × ErrorInfo) :=
  [ (50135, { code := 50135, severity := .WARNING,
              title := "Tracked node not constrained (tied interface)" }),
    (50136, { code := 50136, severity := .WARNING,
              title := "Tracked node too far from segment" }),
    (50120, { code := 50120, severity := .WARNING,
              title := "Contact segment normals inconsistent" }),
    (20248, { code := 20248, severity := .WARNING,
              title := "Initial penetration in contact" }),
    (20200, { code := 20200, severity := .WARNING,
              title := "Contact interface has no segments" }),
    (30010, { code := 30010, severity := .CRITICAL,
              title := "Negative volume (error termination)" }),
    (40003, { code := 40003, severity := .CRITICAL,
              title := "Negative volume in element" }),
    (40004, { code := 40004, severity := .CRITICAL,
              title := "Negative volume in shell element" }),
    (40509, { code := 40509, severity := .WARNING,
              title := "Negative volume warning" }),
    (30200, { code := 30200, severity := .CRITICAL,
              title := "NaN velocity detected" }),
    (30100, { code := 30100, severity := .CRITICAL,
              title := "NaN in stress calculation" }),
    (30358, { code := 30358, severity := .CRITICAL,
              title := "Constraint matrix error" }),
    (10103, { code := 10103, severity := .CRITICAL,
              title := "Out of memory" }),
    (10100, { code := 10100, severity := .CRITICAL,
              title := "Insufficient memory for decomposition" }),
    (40100, { code := 40100, severity := .WARNING,
              title := "Degenerate element detected" }),
    (30001, { code := 30001, severity := .WARNING,
              title := "Element timestep below minimum" }),
    (41200, { code := 41200, severity := .WARNING,
              title := "Material failure criterion met" }),
    (60100, { code := 60100, severity := .WARNING,
              title := "Rigid body mass too small" }),
    (70100, { code := 70100, severity := .WARNING,
              title := "Adaptive remeshing issue" }),
    (80100, { code := 80100, severity := .WARNING,
              title := "SPH particle issue" }),
    (90001, { code := 90001, severity := .CRITICAL,
              title := "License error" }) ]

/-- Embedding of `lookup_error` (`error_db.py`): database hit, otherwise a
synthesized entry with a range-based severity and a generic description. -/
def lookup_error (code : ℤ) : ErrorInfo :=
  match pyGet ERROR_DATABASE code with
  | some info => info
  | none =>
    let severity : Severity :=
      if code < 20000 then .CRITICAL
      else if code < 40000 then .WARNING
      else if code < 50000 then .WARNING
      else if code < 60000 then .WARNING
      else .INFO
    { code := code
      severity := severity
      title := "Code " ++ toString code
      description := "Warning/Error code " ++ toString code ++
        " (not in built-in database)."
      recommendation := "Consult LS-DYNA documentation or LSTC support resources " ++
        "for details on code " ++ toString code ++ "." }

/-! ### Energy analyzer (analysis/energy.py) -/

def HOURGLASS_RATIO_WARN : Q := 0.10

def HOURGLASS_RATIO_CRIT : Q := 0.50

def SLIDING_RATIO_WARN : Q := 0.05

def ENERGY_RATIO_WARN : Q := 0.05

def ENERGY_RATIO_CRIT : Q := 0.10

def ENERGY_GROWTH_WARN : Q := 0.05

/-- The max-hourglass-ratio scan of `analyze_energy`: linear fold keeping
the first maximum (strict `>` to replace) together with its time. -/
def maxHgScan (snapshots : List EnergySnapshot) : Q × Q :=
  snapshots.foldl
    (fun acc s =>
      if s.internal > 0 then
        let ratio := s.hourglass / s.internal
        if ratio > acc.1 then (ratio, s.time) else acc
      else acc)
    (0, 0)

/-- The max-sliding-ratio scan of `analyze_energy`. -/
def maxSlideScan (snapshots : List EnergySnapshot) : Q :=
  snapshots.foldl
    (fun acc s =>
      if s.total > 0 then
        let ratio := qabs s.sliding_interface / qabs s.total
        if ratio > acc then ratio else acc
      else acc)
    0

/-- Embedding of `analyze_energy` (`analysis/energy.py`). -/
def analyze_energy (snapshots : List EnergySnapshot) : EnergyAnalysis :=
  match h : snapshots with
  | [] => {}
  | s0 :: rest =>
    let initial := s0
    let final := (s0 :: rest).getLast (List.cons_ne_nil s0 rest)
    let initial_total : Q := if initial.total ≠ 0 then initial.total else 1
    let hg := maxHgScan snapshots
    let max_hg_ratio := hg.1
    let hgFindings : List Finding :=
      if max_hg_ratio > HOURGLASS_RATIO_CRIT then
        [{ severity := .CRITICAL, category := "energy",
           title := "Hourglass energy critically high" }]
      else if max_hg_ratio > HOURGLASS_RATIO_WARN then
        [{ severity := .WARNING, category := "energy",
           title := "Hourglass energy exceeds 10% of internal energy" }]
      else []
    let max_slide_ratio := maxSlideScan snapshots
    let slideFindings : List Finding :=
      if max_slide_ratio > SLIDING_RATIO_WARN then
        [{ severity := .WARNING, category := "energy",
           title := "High sliding interface energy" }]
      else []
    let min_ratio := rest.foldl (fun m s => min m s.energy_ratio) s0.energy_ratio
    let max_ratio := rest.foldl (fun m s => max m s.energy_ratio) s0.energy_ratio
    let ratioFindings : List Finding :=
      if qabs (max_ratio - 1) > ENERGY_RATIO_CRIT ∨ qabs (min_ratio - 1) > ENERGY_RATIO_CRIT then
        [{ severity := .CRITICAL, category := "energy",
           title := "Energy balance severely violated" }]
      else if qabs (max_ratio - 1) > ENERGY_RATIO_WARN ∨ qabs (min_ratio - 1) > ENERGY_RATIO_WARN then
        [{ severity := .WARNING, category := "energy",
           title := "Energy balance deviation detected" }]
      else []
    let growthFindings : List Finding :=
      if snapshots.length > 2 then
        let final_total := final.total
        if initial_total > 0 ∧ (final_total - initial_total) / initial_total > ENERGY_GROWTH_WARN then
          [{ severity := .CRITICAL, category := "energy",
             title := "Total energy is increasing (divergence)" }]
        else []
      else []
    { snapshots := snapshots
      initial_total_energy := initial.total
      final_total_energy := final.total
      max_hourglass_ratio := max_hg_ratio
      max_sliding_ratio := max_slide_ratio
      energy_ratio_range := (min_ratio, max_ratio)
      findings := hgFindings ++ slideFindings ++ ratioFindings ++ growthFindings }

/-! ### Timestep analyzer (analysis/timestep.py) -/

def DT_DROP_WARN : Q := 0.50

def DT_DROP_CRIT : Q := 0.10

/-- Python `max(items, key=lambda x: x[1])` over an association list: keeps
the first maximal entry (replacement only on strict increase). -/
def pyMaxBySnd (l : List (ℤ × ℤ)) : Option (ℤ × ℤ) :=
  l.foldl
    (fun acc p =>
      match acc with
      | none => some p
      | some q => if p.2 > q.2 then some p else acc)
    none

/-- Embedding of `analyze_timestep` (`analysis/timestep.py`). -/
def analyze_timestep (smallest_timesteps : List TimestepEntry)
    (energy_snapshots : List EnergySnapshot)
    (dt_scale_factor : Q := 0) (dt2ms : Q := 0) (tsmin : Q := 0) :
    TimestepAnalysis :=
  let part_counts : List (ℤ × ℤ) :=
    smallest_timesteps.foldl
      (fun d e => pySet d e.part_number (pyGetD d e.part_number 0 + 1)) []
  let controlling_counts : List (ℤ × ℤ) :=
    energy_snapshots.foldl
      (fun d s =>
        if s.controlling_part > 0 then
          pySet d s.controlling_part (pyGetD d s.controlling_part 0 + 1)
        else d) []
  let initial_dt : Q :=
    match energy_snapshots with
    | [] => 0
    | s :: _ => s.timestep
  let final_dt : Q :=
    match energy_snapshots with
    | [] => 0
    | s :: rest => ((s :: rest).getLast (List.cons_ne_nil s rest)).timestep
  let min_dt : Q :=
    match energy_snapshots with
    | [] => 0
    | s :: rest => rest.foldl (fun m t => min m t.timestep) s.timestep
  let dtFindings : List Finding :=
    if initial_dt > 0 ∧ min_dt > 0 then
      let ratio := min_dt / initial_dt
      if ratio < DT_DROP_CRIT then
        [{ severity := .CRITICAL, category := "timestep",
           title := "Severe timestep drop detected" }]
      else if ratio < DT_DROP_WARN then
        [{ severity := .WARNING, category := "timestep",
           title := "Significant timestep drop detected" }]
      else []
    else []
  let domFindings : List Finding :=
    match pyMaxBySnd part_counts with
    | none => []
    | some dom =>
      let total_entries : ℤ := (part_counts.map (fun p => p.2)).sum
      if Q.ofInt dom.2 / Q.ofInt total_entries > 0.8 then
        [{ severity := .INFO, category := "timestep",
           title := "Part " ++ toString dom.1 ++ " dominates timestep control" }]
      else []
  let msFindings : List Finding :=
    if dt2ms ≠ 0 then
      [{ severity := .INFO, category := "timestep",
         title := "Mass scaling is active" }]
    else []
  { smallest_timesteps := smallest_timesteps
    controlling_parts := if controlling_counts ≠ [] then controlling_counts else part_counts
    initial_dt := initial_dt
    final_dt := final_dt
    min_dt := min_dt
    dt_scale_factor := dt_scale_factor
    dt2ms := dt2ms
    tsmin := tsmin
    findings := dtFindings ++ domFindings ++ msFindings }

/-! ### Warning classifier (analysis/warnings.py) -/

/-- Python `sorted(d.items())`: stable sort by the (code, count) pair in
lexicographic order (codes are unique dict keys). -/
def pySortedItems (l : List (ℤ × ℤ)) : List (ℤ × ℤ) :=
  List.insertionSort
    (fun a b => a.1 < b.1 ∨ (a.1 = b.1 ∧ a.2 ≤ b.2)) l

/-- Python `sorted(d.items(), key=lambda x: -x[1])`: stable sort by count,
descending. -/
def pySortedByCountDesc (l : List (ℤ × ℤ)) : List (ℤ × ℤ) :=
  List.insertionSort (fun a b => -a.2 ≤ -b.2) l

/-- Python `sorted` on a list of ints. -/
def pySortInts (l : List ℤ) : List ℤ :=
  List.insertionSort (fun a b => a ≤ b) l

/-- The `codes_by_severity` grouping of `analyze_warnings`: iterate the
warning-count dict in insertion order, appending each (code, count) pair to
the bucket of its knowledge-base severity. -/
def codesBySeverity (warning_counts : List (ℤ × ℤ)) :
    List (Severity × List (ℤ × ℤ)) :=
  warning_counts.foldl
    (fun d p =>
      let sev := (lookup_error p.1).severity
      pySet d sev (pyGetD d sev [] ++ [p]))
    []

/-- Embedding of `analyze_warnings` (`analysis/warnings.py`).  Returns the
entry list and the finding list.  Free-text message/description fields are
elided; titles are kept (the `{count:,}` thousands separator of Python is
rendered as plain `toString`). -/
def analyze_warnings (warning_counts : List (ℤ × ℤ))
    (warning_messages : List (ℤ × String))
    (warning_interfaces : List (ℤ × List ℤ))
    (error_counts : List (ℤ × ℤ))
    (error_messages : List (ℤ × String)) :
    List WarningEntry × List Finding :=
  let errEntries : List WarningEntry :=
    (pySortedItems error_counts).map (fun p =>
      { code := p.1, count := p.2, severity := .CRITICAL })
  let errFindings : List Finding :=
    (pySortedItems error_counts).map (fun p =>
      { severity := .CRITICAL, category := "error",
        title := "Error " ++ toString p.1 ++ ": " ++ (lookup_error p.1).title })
  let warnEntries : List WarningEntry :=
    (pySortedByCountDesc warning_counts).map (fun p =>
      { code := p.1, count := p.2,
        severity := (lookup_error p.1).severity,
        affected_interfaces := pySortInts (pyGetD warning_interfaces p.1 []) })
  let total_warnings : ℤ := (warning_counts.map (fun p => p.2)).sum
  let groupFindings : List Finding :=
    if total_warnings > 0 then
      let buckets := codesBySeverity warning_counts
      let critFindings : List Finding :=
        (pyGetD buckets Severity.CRITICAL []).map (fun p =>
          { severity := .CRITICAL, category := "warning",
            title := "Warning " ++ toString p.1 ++ ": " ++
              (lookup_error p.1).title ++ " (" ++ toString p.2 ++ "x)" })
      let warn_codes := pyGetD buckets Severity.WARNING []
      let rollupFindings : List Finding :=
        if warn_codes ≠ [] then
          let total_warn : ℤ := (warn_codes.map (fun p => p.2)).sum
          [{ severity := .WARNING, category := "warning",
             title := toString total_warn ++ " warnings detected (" ++
               toString warn_codes.length ++ " codes)" }]
        else []
      critFindings ++ rollupFindings
    else []
  (errEntries ++ warnEntries, errFindings ++ groupFindings)

/-! ### Diagnostics aggregator (analysis/diagnostics.py) -/

/-- Python `min(items, key=lambda s: s.surface_timestep)` over a nonempty
list: keeps the first minimal element (replacement only on strict
decrease). -/
def pyMinBySurfTs (l : List InterfaceSurfaceTimestep) :
    Option InterfaceSurfaceTimestep :=
  l.foldl
    (fun acc s =>
      match acc with
      | none => some s
      | some q => if s.surface_timestep < q.surface_timestep then some s else acc)
    none

/-- Embedding of `_diagnose_contact_dt` (the `min_dt` parameter is unused in
the source as well). -/
def diagnoseContactDt (contact_dt_limit : Q) (min_dt : Q)
    (interface_surface_timesteps : List InterfaceSurfaceTimestep) :
    List Finding :=
  if contact_dt_limit ≤ 0 then []
  else
    let active := interface_surface_timesteps.filter (fun s => s.is_active)
    match pyMinBySurfTs active with
    | none => []
    | some _ =>
      [{ severity := .WARNING, category := "contact",
         title := "접촉 안정성 dt 상한: " ++ fmtQ contact_dt_limit }]

/-- Embedding of `_diagnose_mass_properties`: the inertia-ratio check is
disabled in the source; the function always returns the empty list. -/
def diagnoseMassProperties (mass_properties : List MassProperty) : List Finding :=
  []

/-- Embedding of `_diagnose_decomp`. -/
def diagnoseDecomp (dm : DecompMetrics) : List Finding :=
  if dm.min_cost ≤ 0 ∨ dm.max_cost ≤ 0 then []
  else
    let imbalance := (dm.max_cost - dm.min_cost) / dm.max_cost
    if imbalance > 0.50 then
      [{ severity := .CRITICAL, category := "decomposition",
         title := "MPP 부하 불균형 심각 (" ++ fmtQ imbalance ++ ")" }]
    else if imbalance > 0.30 then
      [{ severity := .WARNING, category := "decomposition",
         title := "MPP 부하 불균형 (" ++ fmtQ imbalance ++ ")" }]
    else []

/-- Embedding of `_diagnose_timestep_collapse`. -/
def diagnoseTimestepCollapse (min_dt : Q) (warnings : List WarningEntry)
    (termination : TerminationInfo) : List Finding :=
  if min_dt < 1e-11 ∧ min_dt > 0 then
    let neg_vol_count : ℤ :=
      ((warnings.filter (fun w => w.code = 40509)).map (fun w => w.count)).sum
    let severity : Severity := if neg_vol_count > 50 then .CRITICAL else .WARNING
    [{ severity := severity, category := "timestep",
       title := "Timestep collapse detected (dt = " ++ fmtQ min_dt ++ ")" }]
  else []

/-- Embedding of `_diagnose_energy_instability`. -/
def diagnoseEnergyInstability (energy_snapshots : List EnergySnapshot) :
    List Finding :=
  match energy_snapshots with
  | [] => []
  | s :: rest =>
    let final := (s :: rest).getLast (List.cons_ne_nil s rest)
    let ratioFindings : List Finding :=
      if final.energy_ratio > 4 then
        [{ severity := .CRITICAL, category := "energy",
           title := "에너지 비율 폭주 (ratio = " ++ fmtQ final.energy_ratio ++ ")" }]
      else if final.energy_ratio > 3 then
        [{ severity := .WARNING, category := "energy",
           title := "에너지 비율 상승 (ratio = " ++ fmtQ final.energy_ratio ++ ")" }]
      else []
    let negFindings : List Finding :=
      if final.internal < 0 then
        [{ severity := .CRITICAL, category := "energy",
           title := "음수 내부 에너지 (IE = " ++ fmtQ final.internal ++ ")" }]
      else []
    ratioFindings ++ negFindings

/-- Embedding of `_diagnose_warning_patterns`. -/
def diagnoseWarningPatterns (warnings : List WarningEntry)
    (termination : TerminationInfo) : List Finding :=
  if termination.total_cycles = 0 then []
  else
    let freqFindings : List Finding :=
      warnings.foldl
        (fun acc w =>
          if w.count = 0 then acc
          else
            let ratio : Q := Q.ofInt w.count / Q.ofInt termination.total_cycles
            if ratio > 0.5 then
              if w.code = 40509 then
                acc ++ [{ severity := .CRITICAL, category := "warnings",
                          title := "Warning " ++ toString w.code ++
                            ": 전체 사이클의 " ++ fmtQ ratio ++ " 발생" }]
              else if w.code = 40538 ∨ w.code = 40540 then
                acc ++ [{ severity := .WARNING, category := "warnings",
                          title := "Warning " ++ toString w.code ++
                            ": 접촉 정의 문제 (사이클의 " ++ fmtQ ratio ++ ")" }]
              else acc
            else acc)
        []
    let neg_vol_total : ℤ :=
      ((warnings.filter (fun w => w.code = 40509)).map (fun w => w.count)).sum
    let negFindings : List Finding :=
      if neg_vol_total > 100 then
        [{ severity := .WARNING, category := "warnings",
           title := "Negative volume 누적 " ++ toString neg_vol_total ++ "회" }]
      else []
    let w50135 := warnings.find? (fun w => w.code = 50135)
    let tied135Findings : List Finding :=
      match w50135 with
      | some w =>
        if w.count > 1000 then
          [{ severity := .WARNING, category := "warnings",
             title := "Tied contact 노드 누락 (Warning 50135: " ++
               toString w.count ++ "회)" }]
        else []
      | none => []
    let w50136 := warnings.find? (fun w => w.code = 50136)
    let tied136Findings : List Finding :=
      match w50136 with
      | some w =>
        if w.count > 100 then
          [{ severity := .WARNING, category := "warnings",
             title := "Tied contact 노드 거리 초과 (Warning 50136: " ++
               toString w.count ++ "회)" }]
        else []
      | none => []
    freqFindings ++ negFindings ++ tied135Findings ++ tied136Findings

/-- Embedding of `_diagnose_performance_bottlenecks`.  The source builds
`perf_map = {p.component: p for p in performance}` (later entries
overwrite earlier ones) and checks three named components. -/
def diagnosePerformanceBottlenecks (performance : List PerformanceTiming) :
    List Finding :=
  match performance with
  | [] => []
  | _ :: _ =>
    let perf_map : List (String × PerformanceTiming) :=
      performance.foldl (fun d p => pySet d p.component p) []
    let fgFindings : List Finding :=
      match pyGet perf_map "Force gather" with
      | some p =>
        if p.cpu_percent > 10 then
          [{ severity := .CRITICAL, category := "performance",
             title := "Force gather 시간 과다 (" ++ fmtQ p.cpu_percent ++ "%)" }]
        else if p.cpu_percent > 5 then
          [{ severity := .WARNING, category := "performance",
             title := "Force gather 시간 주의 (" ++ fmtQ p.cpu_percent ++ "%)" }]
        else []
      | none => []
    let msFindings : List Finding :=
      match pyGet perf_map "Mass Scaling" with
      | some p =>
        if p.cpu_percent > 5 then
          [{ severity := .WARNING, category := "performance",
             title := "Mass Scaling 시간 과다 (" ++ fmtQ p.cpu_percent ++ "%)" }]
        else []
      | none => []
    let ctFindings : List Finding :=
      match pyGet perf_map "Contact algorithm" with
      | some p =>
        if p.cpu_percent > 50 then
          [{ severity := .CRITICAL, category := "performance",
             title := "접촉 계산 시간 과다 (" ++ fmtQ p.cpu_percent ++ "%)" }]
        else if p.cpu_percent > 40 then
          [{ severity := .WARNING, category := "performance",
             title := "접촉 계산 시간 높음 (" ++ fmtQ p.cpu_percent ++ "%)" }]
        else []
      | none => []
    fgFindings ++ msFindings ++ ctFindings

/-- Python `sorted(items, key=lambda x: x[1], reverse=True)`: stable sort
by count, descending. -/
def pySortedBySndRev (l : List (ℤ × ℤ)) : List (ℤ × ℤ) :=
  List.insertionSort (fun a b => b.2 ≤ a.2) l

/-- Embedding of `_diagnose_problematic_parts`. -/
def diagnoseProblematicParts (smallest_timesteps : List TimestepEntry)
    (parts : List PartDefinition) : List Finding :=
  if smallest_timesteps = [] ∨ parts = [] then []
  else
    let part_ts_count : List (ℤ × ℤ) :=
      smallest_timesteps.foldl
        (fun d ts => pySet d ts.part_number (pyGetD d ts.part_number 0 + 1)) []
    let part_names : List (ℤ × String) :=
      parts.foldl (fun d p => pySet d p.part_id p.name) []
    let total_ts : ℤ := (smallest_timesteps.length : ℤ)
    (pySortedBySndRev part_ts_count).foldl
      (fun acc p =>
        let ratio : Q := Q.ofInt p.2 / Q.ofInt total_ts
        if ratio > 0.50 then
          let part_name := pyGetD part_names p.1 ("Part " ++ toString p.1)
          acc ++ [{ severity := .WARNING, category := "part_analysis",
                    title := "파트 " ++ toString p.1 ++ " (" ++ part_name ++
                      ")가 timestep 지배 (" ++ fmtQ ratio ++ ")" }]
        else acc)
      []

/-- The termination-status finding of `run_diagnostics` (the first block of
the function body). -/
def terminationFindings (termination : TerminationInfo) : List Finding :=
  match termination.status with
  | .ERROR =>
    [{ severity := .CRITICAL, category := "termination",
       title := "해석 에러 종료" }]
  | .INCOMPLETE =>
    [{ severity := .CRITICAL, category := "termination",
       title := "해석 미완료 (출력 불완전)" }]
  | .NORMAL =>
    if termination.actual_time > 0 ∧ termination.target_time > 0 then
      let completion := termination.actual_time / termination.target_time
      if completion < 0.99 then
        [{ severity := .WARNING, category := "termination",
           title := "목표 시간 미도달" }]
      else []
    else []

/-- The `all_findings` list assembled by `run_diagnostics` before the final
sort: the termination finding, each analyzer's findings in order, then the
eight cross-cutting checks in order. -/
def runDiagnosticsPre (termination : TerminationInfo)
    (energy_findings timestep_findings warning_findings contact_findings
      performance_findings : List Finding)
    (contact_dt_limit : Q := 0) (min_dt : Q := 0)
    (interface_surface_timesteps : List InterfaceSurfaceTimestep := [])
    (mass_properties : List MassProperty := [])
    (decomp_metrics : DecompMetrics := {})
    (warnings : List WarningEntry := [])
    (energy_snapshots : List EnergySnapshot := [])
    (performance : List PerformanceTiming := [])
    (smallest_timesteps : List TimestepEntry := [])
    (parts : List PartDefinition := []) : List Finding :=
  terminationFindings termination ++
    energy_findings ++ timestep_findings ++ warning_findings ++
    contact_findings ++ performance_findings ++
    diagnoseContactDt contact_dt_limit min_dt interface_surface_timesteps ++
    diagnoseMassProperties mass_properties ++
    diagnoseDecomp decomp_metrics ++
    diagnoseTimestepCollapse min_dt warnings termination ++
    diagnoseEnergyInstability energy_snapshots ++
    diagnoseWarningPatterns warnings termination ++
    diagnosePerformanceBottlenecks performance ++
    diagnoseProblematicParts smallest_timesteps parts

/-- Embedding of `run_diagnostics` (`analysis/diagnostics.py`): assemble
`all_findings`, then sort stably by severity rank. -/
def run_diagnostics (termination : TerminationInfo)
    (energy_findings timestep_findings warning_findings contact_findings
      performance_findings : List Finding)
    (contact_dt_limit : Q := 0) (min_dt : Q := 0)
    (interface_surface_timesteps : List InterfaceSurfaceTimestep := [])
    (mass_properties : List MassProperty := [])
    (decomp_metrics : DecompMetrics := {})
    (warnings : List WarningEntry := [])
    (energy_snapshots : List EnergySnapshot := [])
    (performance : List PerformanceTiming := [])
    (smallest_timesteps : List TimestepEntry := [])
    (parts : List PartDefinition := []) : List Finding :=
  pySortFindings
    (runDiagnosticsPre termination energy_findings timestep_findings
      warning_findings contact_findings performance_findings
      contact_dt_limit min_dt interface_surface_timesteps mass_properties
      decomp_metrics warnings energy_snapshots performance
      smallest_timesteps parts)

/-! ### Multi-rank merge (analyzer.py phase 3, parsers/messag.py)

Only the fields of `MessagData` consumed by the merge step are carried. -/

/-- Per-rank message-file summary (`parsers/messag.py`, `MessagData`). -/
structure MessagData where
  rank : ℤ := 0
  warning_counts : List (ℤ × ℤ) := []
  error_counts : List (ℤ × ℤ) := []
  initial_penetrations : List (ℤ × ℤ) := []
  interface_warning_counts : List (ℤ × ℤ) := []
  smallest_timesteps : List TimestepEntry := []
  interface_surface_timesteps : List InterfaceSurfaceTimestep := []
  contact_dt_limit : Q := 0
  normal_termination : Bool := false
  error_termination : Bool := false
  max_memory_d : ℤ := 0
deriving DecidableEq

/-- The per-rank capture of an initial-penetration line
(`parsers/messag.py` lines 157-161): the dict entry for the interface is
assigned (overwritten, not accumulated) with the reported count. -/
def recordInitPenetration (d : List (ℤ × ℤ)) (count intf_id : ℤ) :
    List (ℤ × ℤ) :=
  pySet d intf_id count

/-- The merge of initial penetrations across ranks (`analyzer.py` lines
112-116): `all_pens[intf] = all_pens.get(intf, 0) + count` folded over all
ranks in order. -/
def mergeInitialPenetrations (mes_data : List MessagData) : List (ℤ × ℤ) :=
  mes_data.foldl
    (fun acc md =>
      md.initial_penetrations.foldl
        (fun a p => pySet a p.1 (pyGetD a p.1 0 + p.2)) acc)
    []

/-! ### String utilities (Python line handling) -/

/-- Python whitespace for `\s`, `str.strip`, `str.split`:
space, tab, newline, carriage return, vertical tab, form feed. -/
def isWsC (c : Char) : Bool :=
  c = ' ' ∨ c.toNat = 9 ∨ c.toNat = 10 ∨ c.toNat = 11 ∨ c.toNat = 12 ∨ c.toNat = 13

/-- Regex `\w`: ASCII letters, digits and underscore (the input is ASCII). -/
def isWordC (c : Char) : Bool :=
  c.isAlphanum ∨ c = '_'

/-- Character class `[\d.E+\-]` of the numeric-token patterns. -/
def isNumTokC (c : Char) : Bool :=
  c.isDigit ∨ c = '.' ∨ c = 'E' ∨ c = '+' ∨ c = '-'

/-- Character class `[\d.]`. -/
def isDotNumC (c : Char) : Bool :=
  c.isDigit ∨ c = '.'

/-- List-level prefix test (`p` is a prefix of the second argument). -/
def isPfxList : List Char → List Char → Bool
  | [], _ => true
  | _ :: _, [] => false
  | p :: ps, c :: cs => p = c && isPfxList ps cs

/-- Substring containment, Python `pat in s` on char lists. -/
def hasSubList (hay pat : List Char) : Bool :=
  match hay with
  | [] => isPfxList pat []
  | _ :: rest => isPfxList pat hay || hasSubList rest pat

/-- Python `pat in s`. -/
def strHas (s pat : String) : Bool :=
  hasSubList s.toList pat.toList

/-- Python `s.rstrip()`. -/
def pyRstrip (s : String) : String :=
  String.mk (s.toList.reverse.dropWhile isWsC).reverse

/-- Python `s.strip()`. -/
def pyStrip (s : String) : String :=
  String.mk (((s.toList.dropWhile isWsC).reverse.dropWhile isWsC).reverse)

/-- Python `s.lower()` (ASCII). -/
def pyLower (s : String) : String :=
  String.mk (s.toList.map Char.toLower)

/-- Python `s.startswith(pat)`. -/
def pyStartswith (s pat : String) : Bool :=
  isPfxList pat.toList s.toList

/-- Python `s.split()`: split on whitespace runs, no empty fields. -/
def pySplitWs (s : String) : List String :=
  let r := s.toList.foldl
    (fun (acc : List String × List Char) c =>
      if isWsC c then
        if acc.2 = [] then acc
        else (acc.1 ++ [String.mk acc.2.reverse], [])
      else (acc.1, c :: acc.2))
    ([], [])
  if r.2 = [] then r.1 else r.1 ++ [String.mk r.2.reverse]

/-- Digits of a numeral, greedy: value, digit count and rest. -/
def spanDigits (cs : List Char) : ℕ × ℕ × List Char :=
  match cs with
  | c :: rest =>
    if c.isDigit then
      let r := spanDigits rest
      (r.1 + c.toNat.sub 48 * Nat.pow 10 r.2.1, r.2.1 + 1, r.2.2)
    else (0, 0, cs)
  | [] => (0, 0, [])

/-- Python `float(s)` on a numeric literal: optional sign, mantissa with
optional fraction (at least one digit overall), optional `E`/`e` exponent
with mandatory digits; the whole string must be consumed.  Returns the
exact rational value. -/
def pyFloatOfString (s : String) : Option Q :=
  let cs := s.toList
  let sgncs : ℤ × List Char :=
    match cs with
    | '+' :: r => (1, r)
    | '-' :: r => (-1, r)
    | _ => (1, cs)
  let (i, ni, rest1) := spanDigits sgncs.2
  let fracrest : ℕ × ℕ × List Char :=
    match rest1 with
    | '.' :: r => spanDigits r
    | _ => (0, 0, rest1)
  let (f, nf, rest2) := fracrest
  let hasFrac : Bool := match rest1 with | '.' :: _ => true | _ => false
  if ni + (if hasFrac then nf + 1 else 0) = 0 then none
  else
    let m : ℕ := i * Nat.pow 10 nf + f
    match rest2 with
    | [] => some (mkQ (sgncs.1 * Int.ofNat m) (Int.ofNat (Nat.pow 10 nf)))
    | e :: r3 =>
      if e = 'E' ∨ e = 'e' then
        let esgnr : ℤ × List Char :=
          match r3 with
          | '+' :: r => (1, r)
          | '-' :: r => (-1, r)
          | _ => (1, r3)
        let (ev, ne, rest4) := spanDigits esgnr.2
        if ne = 0 ∨ rest4 ≠ [] then none
        else if esgnr.1 < 0 then
          some (mkQ (sgncs.1 * Int.ofNat m) (Int.ofNat (Nat.pow 10 (nf + ev))))
        else
          some (mkQ (sgncs.1 * Int.ofNat (m * Nat.pow 10 ev)) (Int.ofNat (Nat.pow 10 nf)))
      else none

/-- Python `int(s)` on a decimal literal: optional sign then digits,
whole string consumed. -/
def pyIntOfString (s : String) : Option ℤ :=
  let cs := s.toList
  let sgncs : ℤ × List Char :=
    match cs with
    | '+' :: r => (1, r)
    | '-' :: r => (-1, r)
    | _ => (1, cs)
  let (v, n, rest) := spanDigits sgncs.2
  if n = 0 ∨ rest ≠ [] then none else some (sgncs.1 * (v : ℤ))

/-- Embedding of `_safe_float` (`parsers/d3hsp.py`): failed conversion
yields `0.0`.  (An out-of-range literal yields a huge rational here; the
corresponding Python float is `inf`, which only becomes observable at the
`int()` conversion, see `pyIntOfFloat`.) -/
def safeFloat (s : String) : Q :=
  (pyFloatOfString s).getD 0

/-- Embedding of `_safe_int` (`parsers/d3hsp.py`). -/
def safeInt (s : String) : ℤ :=
  (pyIntOfString s).getD 0

/-! ### Pattern matchers (the `RE_*` constants of d3hsp.py)

Each Python regex is transcribed as a bespoke recognizer over the line's
character list.  `match`-style patterns are anchored at position 0
(patterns beginning with `^` anchor their `search` uses as well);
`search`-style patterns are tried at every start position, leftmost match
first (`searchL`).  Greedy `+`/`{n,}` repetitions of a character class are
implemented as maximal runs (in every pattern below the following token
cannot consume characters of the same class, so no backtracking is lost),
and lazy `+?`/`*?` repetitions try split points shortest-first
(`lazyClassSplit`, `lazyAnySplit`), exactly as the backtracking engine
does. -/

/-- Try an anchored recognizer at every start position, leftmost first
(Python `re.search`). -/
def searchL {α : Type} (f : List Char → Option α) : List Char → Option α
  | [] => f []
  | c :: rest =>
    match f (c :: rest) with
    | some a => some a
    | none => searchL f rest

/-- Consume a literal. -/
def lit (pat : String) (cs : List Char) : Option (List Char) :=
  if isPfxList pat.toList cs then some (cs.drop pat.toList.length) else none

/-- Regex `\s+`: require at least one whitespace, consume the maximal run. -/
def ws1 (cs : List Char) : Option (List Char) :=
  match cs with
  | c :: rest => if isWsC c then some (rest.dropWhile isWsC) else none
  | [] => none

/-- Regex `\s*`. -/
def ws0 (cs : List Char) : List Char :=
  cs.dropWhile isWsC

/-- Maximal nonempty run of a character class; returns the run and the
rest. -/
def many1 (p : Char → Bool) (cs : List Char) : Option (List Char × List Char) :=
  match cs with
  | c :: _ =>
    if p c then some (cs.takeWhile p, cs.dropWhile p) else none
  | [] => none

/-- Regex `(\d+)`. -/
def digits1 (cs : List Char) : Option (List Char × List Char) :=
  many1 (fun c => c.isDigit) cs

/-- Regex `(\S+)`. -/
def nonWs1 (cs : List Char) : Option (List Char × List Char) :=
  many1 (fun c => !isWsC c) cs

/-- Lazy nonempty class repetition followed by a continuation: tries the
shortest prefix (of characters satisfying `cls`) whose remainder satisfies
`tryRest`. -/
def lazyClassSplit {α : Type} (cls : Char → Bool)
    (tryRest : List Char → Option α) :
    List Char → List Char → Option (List Char × α)
  | _, [] => none
  | acc, c :: rest =>
    if cls c then
      match tryRest rest with
      | some a => some (acc ++ [c], a)
      | none => lazyClassSplit cls tryRest (acc ++ [c]) rest
    else none

/-- Lazy `(.*?)` followed by a continuation: shortest prefix first. -/
def lazyAnySplit {α : Type} (tryRest : List Char → Option α) :
    List Char → List Char → Option (List Char × α)
  | acc, cs =>
    match tryRest cs with
    | some a => some (acc, a)
    | none =>
      match cs with
      | [] => none
      | c :: rest => lazyAnySplit tryRest (acc ++ [c]) rest

/-- Greedy dot run of length at least `n` (regex `\.{n,}`). -/
def dotsAtLeast (n : ℕ) (cs : List Char) : Option (List Char) :=
  let run := cs.takeWhile (fun c => c = '.')
  if n ≤ run.length then some (cs.dropWhile (fun c => c = '.')) else none

/-- String of a captured char list. -/
def cap (cs : List Char) : String :=
  String.mk cs

/-- Exactly `n` digits (regex `\d{n}`). -/
def exactDigits (n : ℕ) (cs : List Char) : Option (List Char × List Char) :=
  let g := cs.take n
  if g.length = n ∧ g.all (fun c => c.isDigit) then some (g, cs.drop n)
  else none

/-- One token of a linear (backtracking-free) regex: a literal, a
whitespace/dot-padding separator, or a captured greedy class run.  The
longer patterns below are transcribed as token lists interpreted by
`runToks`. -/
inductive RTok where
  | tlit (s : String)
  | tws1
  | tws0
  | tdots (n : ℕ)
  | tgrp (p : Char → Bool)
  | tgrpExact (n : ℕ)
  | tgrpWs

/-- Run a single token: consumed captures and the rest of the input. -/
def stepTok (t : RTok) (cs : List Char) : Option (List String × List Char) :=
  match t with
  | .tlit s =>
    match lit s cs with
    | some r => some ([], r)
    | none => none
  | .tws1 =>
    match ws1 cs with
    | some r => some ([], r)
    | none => none
  | .tws0 => some ([], ws0 cs)
  | .tdots n =>
    match dotsAtLeast n cs with
    | some r => some ([], r)
    | none => none
  | .tgrp p =>
    match many1 p cs with
    | some (g, r) => some ([cap g], r)
    | none => none
  | .tgrpExact n =>
    match exactDigits n cs with
    | some (g, r) => some ([cap g], r)
    | none => none
  | .tgrpWs =>
    match cs with
    | c :: rest =>
      if isWsC c then some ([cap (cs.takeWhile isWsC)], rest.dropWhile isWsC)
      else none
    | [] => none

/-- Run a token sequence from the head of the input, collecting captures in
order. -/
def runToks (ts : List RTok) (cs : List Char) : Option (List String × List Char) :=
  match ts with
  | [] => some ([], cs)
  | t :: rest =>
    match stepTok t cs with
    | none => none
    | some (gs, cs2) =>
      match runToks rest cs2 with
      | none => none
      | some (gs2, cs3) => some (gs ++ gs2, cs3)

/-- Anchored match of a token sequence (Python `re.match`), returning the
captures. -/
def matchToks (ts : List RTok) (s : String) : Option (List String) :=
  match runToks ts s.toList with
  | some (gs, _) => some gs
  | none => none

/-- Leftmost match of a token sequence (Python `re.search`), returning the
captures. -/
def searchToks (ts : List RTok) (s : String) : Option (List String) :=
  match searchL (runToks ts) s.toList with
  | some (gs, _) => some gs
  | none => none

/-- Shorthand: digit-class capture token. -/
def tDigits : RTok := .tgrp (fun c => c.isDigit)

/-- Shorthand: `[\d.E+\-]+` capture token. -/
def tNum : RTok := .tgrp isNumTokC

/-- Shorthand: `[\d.]+` capture token. -/
def tDotNum : RTok := .tgrp isDotNumC

/-- Shorthand: `\S+` capture token. -/
def tNonWs : RTok := .tgrp (fun c => !isWsC c)

/-- Shorthand: `\w+` capture token. -/
def tWord : RTok := .tgrp isWordC

/-! #### Header patterns -/

/-- RE_RUN_DATE. -/
def matchRunDate (s : String) : Option (String × String) := do
  let r ← ws1 s.toList
  let r ← lit "Date:" r
  let r ← ws1 r
  let (g1, r) ← nonWs1 r
  let r ← ws1 r
  let r ← lit "Time:" r
  let r ← ws1 r
  let (g2, _) ← nonWs1 r
  pure (cap g1, cap g2)

/-- Shared shape of the boxed header fields
(`^\s*\|\s+Label<sep>:\s*(.+?)\s*\|`).  `sep` selects the token between the
label and the colon: 0 = `\s*`, 1 = `\s+`, 2 = none (the label string
already ends with the colon). -/
def matchPipeField (label : String) (sep : ℕ) (s : String) : Option String := do
  let r := ws0 s.toList
  let r ← lit "|" r
  let r ← ws1 r
  let r ← lit label r
  let r ←
    match sep with
    | 0 => do
      let r := ws0 r
      lit ":" r
    | 1 => do
      let r ← ws1 r
      lit ":" r
    | _ => pure r
  let r := ws0 r
  let (g, _) ← lazyAnySplit
    (fun cs =>
      match lit "|" (ws0 cs) with
      | some _ => some ()
      | none => none)
    [] r
  if g = [] then none else pure (cap g)

/-- RE_INPUT_FILE (search). -/
def searchInputFile (s : String) : Option String :=
  searchL
    (fun cs => do
      let r ← lit "Input file:" cs
      let r := ws0 r
      let (g, _) ← nonWs1 r
      pure (cap g))
    s.toList

/-- RE_CMD_LINE (search). -/
def searchCmdLine (s : String) : Option String :=
  searchL
    (fun cs => do
      let r ← lit "Command line options:" cs
      let r := ws0 r
      let r ← lit "i=" r
      let (g, _) ← nonWs1 r
      pure (cap g))
    s.toList

/-- RE_MPP_PROCS (search):
`(?:MPP|Parallel)\s+execution with\s+(\d+)\s+(?:MPP\s+)?procs?`. -/
def searchMppProcs (s : String) : Option String :=
  searchL
    (fun cs => do
      let r ←
        match lit "MPP" cs with
        | some r => some r
        | none => lit "Parallel" cs
      let r ← ws1 r
      let r ← lit "execution with" r
      let r ← ws1 r
      let (g, r) ← digits1 r
      let r ← ws1 r
      let r ←
        match (do
          let r2 ← lit "MPP" r
          ws1 r2 : Option (List Char)) with
        | some r2 => some r2
        | none => some r
      let _ ← lit "proc" r
      pure (cap g))
    s.toList

/-! #### Keyword count, model size and control-option patterns -/

/-- RE_KEYWORD_COUNT (match): `total # of \*(<class>+?)\.{2,}\s+(\d+)`. -/
def matchKeywordCount (s : String) : Option (String × String) := do
  let r ← lit "total # of *" s.toList
  let isKwC : Char → Bool := fun c =>
    c.isAlpha ∨ c = '_' ∨ c.isDigit ∨ c = '/' ∨ c = ',' ∨ c = '.' ∨ c = '+' ∨
      c = '-' ∨ c = '(' ∨ c = ')' ∨ isWsC c
  let (g1, g2) ← lazyClassSplit isKwC
    (fun cs => do
      let r ← dotsAtLeast 2 cs
      let r ← ws1 r
      let (d, _) ← digits1 r
      pure (cap d))
    [] r
  pure (cap g1, g2)

/-- Shared shape `label\.+\s+(\d+)` (search). -/
def searchLabelDotsInt (label : String) (s : String) : Option String :=
  searchL
    (fun cs => do
      let r ← lit label cs
      let r ← dotsAtLeast 1 r
      let r ← ws1 r
      let (d, _) ← digits1 r
      pure (cap d))
    s.toList

/-- Shared shape `label\.+\s+([\d.E+\-]+)` (search). -/
def searchLabelDotsNum (label : String) (s : String) : Option String :=
  searchL
    (fun cs => do
      let r ← lit label cs
      let r ← dotsAtLeast 1 r
      let r ← ws1 r
      let (d, _) ← many1 isNumTokC r
      pure (cap d))
    s.toList

/-- Shared shape `label.*?\.+\s+([\d.E+\-]+)` (search), used by RE_DT2MS
and RE_TSMIN. -/
def searchLabelLazyDotsNum (label : String) (s : String) : Option String :=
  searchL
    (fun cs => do
      let r ← lit label cs
      let (_, d) ← lazyAnySplit
        (fun cs2 => do
          let r2 ← dotsAtLeast 1 cs2
          let r2 ← ws1 r2
          let (d2, _) ← many1 isNumTokC r2
          pure (cap d2))
        [] r
      pure d)
    s.toList

/-! #### Part-definition patterns -/

/-- RE_PART_SEPARATOR (match): `^\s*\*{60,}`. -/
def matchPartSeparator (s : String) : Bool :=
  let r := ws0 s.toList
  60 ≤ (r.takeWhile (fun c => c = '*')).length

/-- Shared shape `label\s+id\s*\.+\s*(\d+)` and friends:
`pre` is the literal, then `\s*\.+\s*(\d+)` (search). -/
def searchLabelDotsInt' (label : String) (s : String) : Option String :=
  searchL
    (fun cs => do
      let r ← lit label cs
      let r := ws0 r
      let r ← dotsAtLeast 1 r
      let r := ws0 r
      let (d, _) ← digits1 r
      pure (cap d))
    s.toList

/-- Shared shape `label\s*\.+\s*=\s*([\d.E+\-]+)` (search). -/
def searchLabelDotsEqNum (label : String) (s : String) : Option String :=
  searchL
    (fun cs => do
      let r ← lit label cs
      let r := ws0 r
      let r ← dotsAtLeast 1 r
      let r := ws0 r
      let r ← lit "=" r
      let r := ws0 r
      let (d, _) ← many1 isNumTokC r
      pure (cap d))
    s.toList

/-- Shared shape `label\s*\.+\s*=\s*(\d+)` (search). -/
def searchLabelDotsEqInt (label : String) (s : String) : Option String :=
  searchL
    (fun cs => do
      let r ← lit label cs
      let r := ws0 r
      let r ← dotsAtLeast 1 r
      let r := ws0 r
      let r ← lit "=" r
      let r := ws0 r
      let (d, _) ← digits1 r
      pure (cap d))
    s.toList

/-- RE_YOUNGS_MOD (anchored): `^\s+e\s+\.+\s*=\s*([\d.E+\-]+)`. -/
def matchYoungsMod (s : String) : Option String := do
  let r ← ws1 s.toList
  let r ← lit "e" r
  let r ← ws1 r
  let r ← dotsAtLeast 1 r
  let r := ws0 r
  let r ← lit "=" r
  let r := ws0 r
  let (d, _) ← many1 isNumTokC r
  pure (cap d)

/-- Shared marker shape `label\s*\.+` (search), for the section/material
title markers. -/
def searchLabelDots (label : String) (s : String) : Bool :=
  (searchL
    (fun cs => do
      let r ← lit label cs
      let r := ws0 r
      let _ ← dotsAtLeast 1 r
      pure ())
    s.toList).isSome

/-! #### Contact patterns -/

/-- RE_CONTACT_HEADER (search): `Contact Interface\s+(\d+)`. -/
def searchContactHeader (s : String) : Option String :=
  searchL
    (fun cs => do
      let r ← lit "Contact Interface" cs
      let r ← ws1 r
      let (d, _) ← digits1 r
      pure (cap d))
    s.toList

/-- RE_CONTACT_TYPE (search): `contact type\.+\s+(\d+)`. -/
def searchContactType (s : String) : Option String :=
  searchLabelDotsInt "contact type" s

/-- RE_CONTACT_SUMMARY_ENTRY (match):
`^\s+(\d+)\s+(\d+)\s+([oa]?\s*\d+)\s+(.*?)\s*$`. -/
def matchContactSummaryEntry (s : String) :
    Option (String × String × String × String) := do
  let r ← ws1 s.toList
  let (g1, r) ← digits1 r
  let r ← ws1 r
  let (g2, r) ← digits1 r
  let r ← ws1 r
  let oa : List Char × List Char :=
    match r with
    | 'o' :: rest => (['o'], rest)
    | 'a' :: rest => (['a'], rest)
    | _ => ([], r)
  let mid := oa.2.takeWhile isWsC
  let r2 := oa.2.dropWhile isWsC
  let (g3d, r) ← digits1 r2
  let g3 := oa.1 ++ mid ++ g3d
  let r ← ws1 r
  let g4 := (r.reverse.dropWhile isWsC).reverse
  pure (cap g1, cap g2, cap g3, cap g4)

/-! #### Body patterns -/

/-- RE_WARNING (match): `^\s*\*\*\*\s+Warning\s+(\d+)`. -/
def matchWarning (s : String) : Option String := do
  let r := ws0 s.toList
  let r ← lit "***" r
  let r ← ws1 r
  let r ← lit "Warning" r
  let r ← ws1 r
  let (d, _) ← digits1 r
  pure (cap d)

/-- RE_ERROR (match): `^\s*\*\*\*\s+Error\s+(\d+)`. -/
def matchErrorRE (s : String) : Option String := do
  let r := ws0 s.toList
  let r ← lit "***" r
  let r ← ws1 r
  let r ← lit "Error" r
  let r ← ws1 r
  let (d, _) ← digits1 r
  pure (cap d)

/-- RE_TIED_INTERFACE (search): `tied interface #\s*=\s*(\d+)`. -/
def searchTiedInterface (s : String) : Option String :=
  searchL
    (fun cs => do
      let r ← lit "tied interface #" cs
      let r := ws0 r
      let r ← lit "=" r
      let r := ws0 r
      let (d, _) ← digits1 r
      pure (cap d))
    s.toList

/-- RE_ENERGY_FIELD (match):
`^\s*([\w\s/().]+?)\.{2,}\s+([\d.E+\-]+|\d+)\s*$`.  The key class is a lazy
repetition; the value alternation is subsumed by its first branch. -/
def matchEnergyField (s : String) : Option (String × String) := do
  let r := ws0 s.toList
  let isKeyC : Char → Bool := fun c =>
    isWordC c ∨ isWsC c ∨ c = '/' ∨ c = '(' ∨ c = ')' ∨ c = '.'
  let (g1, g2) ← lazyClassSplit isKeyC
    (fun cs => do
      let r2 ← dotsAtLeast 2 cs
      let r2 ← ws1 r2
      let (d, r3) ← many1 isNumTokC r2
      let r4 := ws0 r3
      if r4 = [] then pure (cap d) else none)
    [] r
  pure (cap g1, g2)

/-- RE_DT_CYCLE (search):
`dt of cycle\s+(\d+)\s+is controlled by\s+(\w+)\s+(\d+)\s+of part\s+(\d+)`. -/
def searchDtCycle (s : String) :
    Option (String × String × String × String) :=
  match searchToks
    [.tlit "dt of cycle", .tws1, tDigits, .tws1, .tlit "is controlled by",
     .tws1, tWord, .tws1, tDigits, .tws1, .tlit "of part", .tws1, tDigits] s with
  | some [g1, g2, g3, g4] => some (g1, g2, g3, g4)
  | _ => none

/-- RE_SMALLEST_TS_ENTRY (anchored form, used with `.match`):
`(solid|shell|beam|tshell)\s+(\d+)\s+(\d+)\s+([\d.E+\-]+)`. -/
def matchSmallestTsEntry (s : String) :
    Option (String × String × String × String) := do
  let cs := s.toList
  let tyr : Option (String × List Char) :=
    match lit "solid" cs with
    | some r => some ("solid", r)
    | none =>
      match lit "shell" cs with
      | some r => some ("shell", r)
      | none =>
        match lit "beam" cs with
        | some r => some ("beam", r)
        | none =>
          match lit "tshell" cs with
          | some r => some ("tshell", r)
          | none => none
  let (ty, r) ← tyr
  let r ← ws1 r
  let (g2, r) ← digits1 r
  let r ← ws1 r
  let (g3, r) ← digits1 r
  let r ← ws1 r
  let (g4, _) ← many1 isNumTokC r
  pure (ty, cap g2, cap g3, cap g4)

/-- Shared shape `label\s+([\d.E+\-]+)` (search), for the decomposition
metrics. -/
def searchLabelWsNum (label : String) (s : String) : Option String :=
  searchL
    (fun cs => do
      let r ← lit label cs
      let r ← ws1 r
      let (d, _) ← many1 isNumTokC r
      pure (cap d))
    s.toList

/-- Shared shape `label\s+:\s+(\d+)` (search), for the decomposition
memory metrics. -/
def searchLabelWsColonInt (label : String) (s : String) : Option String :=
  searchL
    (fun cs => do
      let r ← lit label cs
      let r ← ws1 r
      let r ← lit ":" r
      let r ← ws1 r
      let (d, _) ← digits1 r
      pure (cap d))
    s.toList

/-- RE_MASS_PART_HEADER (search):
`m a s s\s+p r o p e r t i e s\s+o f\s+p a r t\s*#\s*(\d+)`. -/
def searchMassPartHeader (s : String) : Option String :=
  searchL
    (fun cs => do
      let r ← lit "m a s s" cs
      let r ← ws1 r
      let r ← lit "p r o p e r t i e s" r
      let r ← ws1 r
      let r ← lit "o f" r
      let r ← ws1 r
      let r ← lit "p a r t" r
      let r := ws0 r
      let r ← lit "#" r
      let r := ws0 r
      let (d, _) ← digits1 r
      pure (cap d))
    s.toList

/-- Shared shape `label\s+=\s+([\d.E+\-]+)` (search). -/
def searchLabelEqNum (label : String) (s : String) : Option String :=
  searchL
    (fun cs => do
      let r ← lit label cs
      let r ← ws1 r
      let r ← lit "=" r
      let r ← ws1 r
      let (d, _) ← many1 isNumTokC r
      pure (cap d))
    s.toList

/-- Shared shape `label\s*=\s*(-?[\d.E+\-]+)` (search), for the
mass-center coordinates and inertia entries. -/
def searchLabelEqNum' (label : String) (s : String) : Option String :=
  searchL
    (fun cs => do
      let r ← lit label cs
      let r := ws0 r
      let r ← lit "=" r
      let r := ws0 r
      let (d, _) ← many1 isNumTokC r
      pure (cap d))
    s.toList

/-! #### Tail patterns -/

/-- Regex `([\d.]+)`. -/
def dotNum1 (cs : List Char) : Option (List Char × List Char) :=
  many1 isDotNumC cs

/-- RE_INTERF_ID (match): `^\s+Interf\.\s+ID\s+(\d+)` followed by four
numeric columns. -/
def matchInterfId (s : String) :
    Option (String × String × String × String × String) :=
  match matchToks
    [.tws1, .tlit "Interf.", .tws1, .tlit "ID", .tws1, tDigits, .tws1, tNum,
     .tws1, tDotNum, .tws1, tNum, .tws1, tDotNum] s with
  | some [g1, g2, g3, g4, g5] => some (g1, g2, g3, g4, g5)
  | _ => none

/-- RE_TIMING_ENTRY (match):
`^\s{1,2}(\S.*?)\s*\.{2,}\s*([\d.E+\-]+)\s+([\d.]+)\s+([\d.E+\-]+)\s+([\d.]+)`.
One or two leading whitespace characters (greedy with backtracking), then a
lazily captured component name up to the dot padding, then four numeric
columns. -/
def matchTimingEntry (s : String) :
    Option (String × String × String × String × String) := do
  let cs := s.toList
  let afterWs : Option (List Char) :=
    match cs with
    | c1 :: c2 :: c3 :: rest =>
      if isWsC c1 then
        if isWsC c2 then
          if isWsC c3 then none else some (c3 :: rest)
        else some (c2 :: c3 :: rest)
      else none
    | [c1, c2] =>
      if isWsC c1 then
        if isWsC c2 then none else some [c2]
      else none
    | _ => none
  let r ← afterWs
  let tryCols : List Char → Option (String × String × String × String) :=
    fun cs2 =>
      match runToks
        [.tws0, .tdots 2, .tws0, tNum, .tws1, tDotNum, .tws1, tNum, .tws1,
         tDotNum] cs2 with
      | some ([g2, g3, g4, g5], _) => some (g2, g3, g4, g5)
      | _ => none
  match r with
  | [] => none
  | c :: rest =>
    if isWsC c then none
    else do
      let (g1tail, cols) ← lazyAnySplit tryCols [] rest
      pure (cap (c :: g1tail), cols.1, cols.2.1, cols.2.2.1, cols.2.2.2)

/-- RE_CPU_PROC (match, applied to the stripped line):
`#\s+(\d+)\s+(\S+)\s+([\d.]+)\s+([\d.E+\-]+)`. -/
def matchCpuProc (s : String) :
    Option (String × String × String × String) :=
  match matchToks
    [.tlit "#", .tws1, tDigits, .tws1, tNonWs, .tws1, tDotNum, .tws1, tNum] s with
  | some [g1, g2, g3, g4] => some (g1, g2, g3, g4)
  | _ => none

/-- RE_TOTAL_CPU (search): `Total CPU time\s+=\s+(\d+)\s+seconds`. -/
def searchTotalCpu (s : String) : Option String :=
  match searchToks
    [.tlit "Total CPU time", .tws1, .tlit "=", .tws1, tDigits, .tws1,
     .tlit "seconds"] s with
  | some [d] => some d
  | _ => none

/-- Shared shape `label\s*=\s+([\d.]+)\s+nanoseconds` (search), for the
per-zone-cycle times. -/
def searchPerZone (label : String) (s : String) : Option String :=
  match searchToks
    [.tlit label, .tws0, .tlit "=", .tws1, tDotNum, .tws1,
     .tlit "nanoseconds"] s with
  | some [d] => some d
  | _ => none

/-- Shared shape of RE_START_TIME / RE_END_TIME (search):
`label\s+(\d{2}/\d{2}/\d{4}\s+\d{2}:\d{2}:\d{2})`, capturing the datetime
text (reassembled from the sub-captures, including the inner whitespace
run). -/
def searchDatetime (label : String) (s : String) : Option String :=
  match searchToks
    [.tlit label, .tws1, .tgrpExact 2, .tlit "/", .tgrpExact 2, .tlit "/",
     .tgrpExact 4, .tgrpWs, .tgrpExact 2, .tlit ":", .tgrpExact 2,
     .tlit ":", .tgrpExact 2] s with
  | some [d1, d2, d3, w, t1, t2, t3] =>
    some (d1 ++ "/" ++ d2 ++ "/" ++ d3 ++ w ++ t1 ++ ":" ++ t2 ++ ":" ++ t3)
  | _ => none

/-- RE_ELAPSED (search): `Elapsed time\s+(\d+)\s+seconds`. -/
def searchElapsed (s : String) : Option String :=
  match searchToks
    [.tlit "Elapsed time", .tws1, tDigits, .tws1, .tlit "seconds"] s with
  | some [d] => some d
  | _ => none

/-! ### Primary log parser (parsers/d3hsp.py) -/

/-- Extract the single capture of a searched token pattern. -/
def searchToks1 (ts : List RTok) (s : String) : Option String :=
  match searchToks ts s with
  | some [d] => some d
  | _ => none

/-- Test a captureless searched token pattern. -/
def searchToks0 (ts : List RTok) (s : String) : Bool :=
  (searchToks ts s).isSome

/-- `MATERIAL_TYPE_NAMES` (d3hsp.py). -/
def MATERIAL_TYPE_NAMES : List (ℤ × String) :=
  [ (1, "Elastic"), (2, "Orthotropic"), (3, "Elastic-Plastic (von Mises)"),
    (5, "Soil/Crushable Foam"), (6, "Viscoelastic"), (7, "Blatz-Ko Rubber"),
    (9, "Null"), (20, "Rigid"), (24, "Piecewise Linear Plasticity"),
    (57, "Low Density Urethane Foam"), (76, "Linear Viscoelastic"),
    (77, "General Hyperelastic/Ogden"), (98, "Simplified Johnson Cook") ]

/-- Container for all parsed d3hsp data (`d3hsp.py`, `D3hspData`). -/
structure D3hspData where
  header : SimulationHeader := {}
  model_size : ModelSize := {}
  termination : TerminationInfo := {}
  keyword_counts : List (String × ℤ) := []
  parts : List PartDefinition := []
  contact_ids : List ℤ := []
  contact_types : List (ℤ × ℤ) := []
  warning_counts : List (ℤ × ℤ) := []
  warning_messages : List (ℤ × String) := []
  warning_interfaces : List (ℤ × List ℤ) := []
  error_counts : List (ℤ × ℤ) := []
  error_messages : List (ℤ × String) := []
  energy_snapshots : List EnergySnapshot := []
  smallest_timesteps : List TimestepEntry := []
  performance : List PerformanceTiming := []
  contact_timing : List ContactTiming := []
  mpp_timing : List MPPProcessorTiming := []
  contact_definitions : List ContactDefinition := []
  dt_scale_factor : Q := 0
  dt2ms : Q := 0
  tsmin : Q := 0
  decomp_metrics : DecompMetrics := {}
  mass_properties : List MassProperty := []
deriving DecidableEq

/-- The `current_cycle_info` dict of the parse loop: `none` models the
initial empty dict, `some` the four keys set when a block opens. -/
structure CycleInfo where
  cycle : ℤ
  elem_type : String
  elem_num : ℤ
  part_num : ℤ
deriving DecidableEq

/-- The state-machine phases of `D3hspParser.parse`. -/
inductive D3Phase where
  | HEADER
  | KEYWORD_COUNTS
  | CONTROL_INFO
  | PART_DEFS
  | CONTACTS
  | BODY
  | TAIL
deriving DecidableEq

/-- The full loop state of `D3hspParser.parse`. -/
structure D3State where
  phase : D3Phase := .HEADER
  data : D3hspData := {}
  part_block : List String := []
  in_contact_summary : Bool := false
  in_smallest_ts : Bool := false
  in_timing : Bool := false
  in_cpu_timing : Bool := false
  in_energy_block : Bool := false
  current_energy : List (String × Q) := []
  current_cycle_info : Option CycleInfo := none
  last_warning_code : Option ℤ := none
  lines_after_warning : ℕ := 0
deriving DecidableEq

/-- Mutate the last element of a list (Python `lst[-1].field = v`). -/
def updateLast {α : Type} (f : α → α) : List α → List α
  | [] => []
  | [a] => [f a]
  | a :: b :: rest => a :: updateLast f (b :: rest)

/-- Embedding of `_parse_header_line`: the ordered pattern table with
first-match-wins semantics, then the input-file, command-line and MPP
fallbacks. -/
def parseHeaderLine (line : String) (data : D3hspData) : D3hspData :=
  match matchRunDate line with
  | some (d, t) =>
    { data with header := { data.header with date := d, time := t } }
  | none =>
  match matchPipeField "Version" 0 line with
  | some v => { data with header := { data.header with version := v } }
  | none =>
  match matchPipeField "Revision" 0 line with
  | some v => { data with header := { data.header with revision := v } }
  | none =>
  match matchPipeField "Platform" 1 line with
  | some v => { data with header := { data.header with platform := v } }
  | none =>
  match matchPipeField "OS Level" 1 line with
  | some v => { data with header := { data.header with os_level := v } }
  | none =>
  match matchPipeField "Compiler" 1 line with
  | some v => { data with header := { data.header with compiler := v } }
  | none =>
  match matchPipeField "Hostname" 1 line with
  | some v => { data with header := { data.header with hostname := v } }
  | none =>
  match matchPipeField "Precision" 1 line with
  | some v => { data with header := { data.header with precision := v } }
  | none =>
  match matchPipeField "Licensed to:" 2 line with
  | some v => { data with header := { data.header with licensee := v } }
  | none =>
  match searchInputFile line with
  | some v => { data with header := { data.header with input_file := v } }
  | none =>
  match searchCmdLine line with
  | some v =>
    if data.header.input_file = "" then
      { data with header := { data.header with input_file := v } }
    else data
  | none =>
  match searchMppProcs line with
  | some v => { data with header := { data.header with num_procs := safeInt v } }
  | none => data

/-- Embedding of `_parse_model_size`: ordered table, first match wins. -/
def parseModelSize (line : String) (data : D3hspData) : D3hspData :=
  match searchLabelDotsInt "number of materials or property sets" line with
  | some v =>
    { data with model_size := { data.model_size with num_materials := safeInt v } }
  | none =>
  match searchLabelDotsInt "number of nodal+scalar points" line with
  | some v =>
    { data with model_size := { data.model_size with num_nodes := safeInt v } }
  | none =>
  match searchLabelDotsInt "number of solid elements" line with
  | some v =>
    { data with model_size := { data.model_size with num_solid_elements := safeInt v } }
  | none =>
  match searchLabelDotsInt "number of shell elements" line with
  | some v =>
    { data with model_size := { data.model_size with num_shell_elements := safeInt v } }
  | none =>
  match searchLabelDotsInt "number of beam elements" line with
  | some v =>
    { data with model_size := { data.model_size with num_beam_elements := safeInt v } }
  | none =>
  match searchLabelDotsInt "number of thick shell elements" line with
  | some v =>
    { data with model_size :=
        { data.model_size with num_thick_shell_elements := safeInt v } }
  | none =>
  match searchLabelDotsInt "number of SPH particles" line with
  | some v =>
    { data with model_size := { data.model_size with num_sph_particles := safeInt v } }
  | none =>
  match searchLabelDotsInt "number of number of contact definitions" line with
  | some v =>
    { data with model_size := { data.model_size with num_contacts := safeInt v } }
  | none =>
  match searchLabelDotsInt "number of spc nodes" line with
  | some v =>
    { data with model_size := { data.model_size with num_spc_nodes := safeInt v } }
  | none => data

/-- Embedding of `_parse_computation_options`: four independent searches
(no early return). -/
def parseComputationOptions (line : String) (data : D3hspData) : D3hspData :=
  let data :=
    match searchLabelDotsNum "termination time" line with
    | some v =>
      { data with termination := { data.termination with target_time := safeFloat v } }
    | none => data
  let data :=
    match searchLabelDotsNum "time step scale factor" line with
    | some v => { data with dt_scale_factor := safeFloat v }
    | none => data
  let data :=
    match searchLabelLazyDotsNum "time step size for mass scaled solution" line with
    | some v => { data with dt2ms := safeFloat v }
    | none => data
  match searchLabelLazyDotsNum "reduction factor for minimum time step" line with
  | some v => { data with tsmin := safeFloat v }
  | none => data

/-- The part-name lookback of `_parse_part_block`: the first line among the
up-to-three lines before the `part id` line that is nonempty, does not
start with `*` and does not contain `part` case-insensitively. -/
def findPartName (all : List String) (i : ℕ) : Option String :=
  ((List.range i).drop (i - 3)).findSome? (fun j =>
    let candidate := pyStrip (all.getD j "")
    if candidate ≠ "" ∧ ¬ (pyStartswith candidate "*") ∧
        ¬ (strHas (pyLower candidate) "part") = true then
      some candidate
    else none)

/-- One iteration of the `_parse_part_block` loop body. -/
def partBlockLine (all : List String) (i : ℕ) (line : String)
    (st : PartDefinition × Bool × Bool) : PartDefinition × Bool × Bool :=
  let (part, expectSec, expectMat) := st
  if expectSec then ({ part with section_title := pyStrip line }, false, expectMat)
  else if expectMat then ({ part with material_title := pyStrip line }, expectSec, false)
  else
    match searchToks1 [.tlit "part", .tws1, .tlit "id", .tws0, .tdots 1,
        .tws0, tDigits] line with
    | some v =>
      let part := { part with part_id := safeInt v }
      let part :=
        match findPartName all i with
        | some nm => { part with name := nm }
        | none => part
      (part, expectSec, expectMat)
    | none =>
    match searchToks1 [.tlit "section", .tws1, .tlit "id", .tws0, .tdots 1,
        .tws0, tDigits] line with
    | some v => ({ part with section_id := safeInt v }, expectSec, expectMat)
    | none =>
    match searchToks1 [.tlit "material", .tws1, .tlit "id", .tws0, .tdots 1,
        .tws0, tDigits] line with
    | some v => ({ part with material_id := safeInt v }, expectSec, expectMat)
    | none =>
    if searchToks0 [.tlit "section", .tws1, .tlit "title", .tws0, .tdots 1] line then
      (part, true, expectMat)
    else if searchToks0 [.tlit "material title", .tws0, .tdots 1] line then
      (part, expectSec, true)
    else
    match searchToks1 [.tlit "material type", .tws0, .tdots 1, .tws0, tDigits] line with
    | some v =>
      let mt := safeInt v
      let nm := pyGetD MATERIAL_TYPE_NAMES mt ("Type " ++ toString mt)
      ({ part with material_type := mt, material_type_name := nm },
        expectSec, expectMat)
    | none =>
    match searchToks1 [.tlit "equation-of-state type", .tws0, .tdots 1,
        .tws0, tDigits] line with
    | some v => ({ part with eos_type := safeInt v }, expectSec, expectMat)
    | none =>
    match searchToks1 [.tlit "hourglass type", .tws0, .tdots 1, .tws0, tDigits] line with
    | some v => ({ part with hourglass_type := safeInt v }, expectSec, expectMat)
    | none =>
    match searchToks1 [.tlit "density", .tws0, .tdots 1, .tws0, .tlit "=",
        .tws0, tNum] line with
    | some v => ({ part with density := safeFloat v }, expectSec, expectMat)
    | none =>
    match searchToks1 [.tlit "hourglass coefficient", .tws0, .tdots 1, .tws0,
        .tlit "=", .tws0, tNum] line with
    | some v =>
      ({ part with hourglass_coefficient := safeFloat v }, expectSec, expectMat)
    | none =>
    match matchToks [.tws1, .tlit "e", .tws1, .tdots 1, .tws0, .tlit "=",
        .tws0, tNum] line with
    | some [v] => ({ part with youngs_modulus := safeFloat v }, expectSec, expectMat)
    | _ =>
    match searchToks1 [.tlit "vnu", .tws0, .tdots 1, .tws0, .tlit "=",
        .tws0, tNum] line with
    | some v => ({ part with poisson_ratio := safeFloat v }, expectSec, expectMat)
    | none =>
    match searchToks1 [.tlit "solid", .tws1, .tlit "formulation", .tws0,
        .tdots 1, .tws0, .tlit "=", .tws0, tDigits] line with
    | some v => ({ part with solid_formulation := safeInt v }, expectSec, expectMat)
    | none => (part, expectSec, expectMat)

/-- Embedding of `_parse_part_block`: fold the loop body over the
enumerated block lines; a block without a `part id` yields nothing. -/
def parsePartBlock (lines : List String) : Option PartDefinition :=
  let st : PartDefinition × Bool × Bool :=
    lines.enum.foldl
      (fun st p => partBlockLine lines p.1 p.2 st) ({}, false, false)
  if st.1.part_id = 0 then none else some st.1

/-- Embedding of `_build_energy_snapshot`: `None` without cycle info or
captured fields, otherwise the snapshot; the `int()` conversion of the
time-per-zone field raises `OverflowError` when the captured literal
overflowed to an IEEE infinity. -/
def buildEnergySnapshot (cycle_info : Option CycleInfo)
    (energy : List (String × Q)) : Except PyErr (Option EnergySnapshot) :=
  match cycle_info with
  | none => .ok none
  | some ci =>
    if energy = [] then .ok none
    else
      let ge : String → Q := fun k => pyGetD energy k 0
      match pyIntOfFloat (ge "time per zone cycle.(nanosec)") with
      | .error e => .error e
      | .ok tpz =>
        .ok (some
          { cycle := ci.cycle
            time := ge "time"
            timestep := ge "time step"
            kinetic := ge "kinetic energy"
            internal := ge "internal energy"
            spring_damper := ge "spring and damper energy"
            hourglass := ge "hourglass energy"
            system_damping := ge "system damping energy"
            sliding_interface := ge "sliding interface energy"
            external_work := ge "external work"
            eroded_kinetic := ge "eroded kinetic energy"
            eroded_internal := ge "eroded internal energy"
            eroded_hourglass := ge "eroded hourglass energy"
            total := ge "total energy"
            energy_ratio := pyOrFloat (ge "total energy / initial energy") 1
            energy_ratio_no_eroded :=
              pyOrFloat (ge "energy ratio w/o eroded energy") 1
            global_velocity :=
              (ge "global x velocity", ge "global y velocity",
                ge "global z velocity")
            controlling_element_type := ci.elem_type
            controlling_element := ci.elem_num
            controlling_part := ci.part_num
            time_per_zone_ns := tpz })

/-- The shared mass-property field updates (identical in the BODY and TAIL
handling): coordinates of the mass center, total mass and inertia entries,
each applied to the last appended `MassProperty`. -/
def massFieldApply (stripped : String) (data : D3hspData) : D3hspData :=
  if strHas stripped "mass center" then
    if strHas stripped "x-coordinate" then
      match searchLabelEqNum' "x-coordinate of mass center" stripped with
      | some v =>
        { data with mass_properties :=
            (updateLast (fun mp => { mp with cx := safeFloat v }) data.mass_properties) }
      | none => data
    else if strHas stripped "y-coordinate" then
      match searchLabelEqNum' "y-coordinate of mass center" stripped with
      | some v =>
        { data with mass_properties :=
            (updateLast (fun mp => { mp with cy := safeFloat v }) data.mass_properties) }
      | none => data
    else if strHas stripped "z-coordinate" then
      match searchLabelEqNum' "z-coordinate of mass center" stripped with
      | some v =>
        { data with mass_properties :=
            (updateLast (fun mp => { mp with cz := safeFloat v }) data.mass_properties) }
      | none => data
    else data
  else if strHas stripped "total mass" then
    match searchLabelEqNum "total mass of part" stripped with
    | some v =>
      { data with mass_properties :=
          (updateLast (fun mp => { mp with total_mass := safeFloat v }) data.mass_properties) }
    | none => data
  else if strHas stripped "i11" then
    match searchLabelEqNum' "i11" stripped with
    | some v =>
      { data with mass_properties :=
          (updateLast (fun mp => { mp with i11 := safeFloat v }) data.mass_properties) }
    | none => data
  else if strHas stripped "i22" then
    match searchLabelEqNum' "i22" stripped with
    | some v =>
      { data with mass_properties :=
          (updateLast (fun mp => { mp with i22 := safeFloat v }) data.mass_properties) }
    | none => data
  else if strHas stripped "i33" then
    match searchLabelEqNum' "i33" stripped with
    | some v =>
      { data with mass_properties :=
          (updateLast (fun mp => { mp with i33 := safeFloat v }) data.mass_properties) }
    | none => data
  else data

/-- The decomposition-metric and mass-property branches at the bottom of
the `state == "BODY"` block. -/
def stepBodyDecomp (st : D3State) (stripped : String) : D3State :=
  if strHas stripped "Minumum:" then
    match searchLabelWsNum "Minumum:" stripped with
    | some v =>
      { st with data := { st.data with decomp_metrics :=
        { st.data.decomp_metrics with min_cost := safeFloat v } } }
    | none => st
  else if strHas stripped "Maximum:" then
    match searchLabelWsNum "Maximum:" stripped with
    | some v =>
      { st with data := { st.data with decomp_metrics :=
        { st.data.decomp_metrics with max_cost := safeFloat v } } }
    | none => st
  else if strHas stripped "Standard Deviation:" then
    match searchLabelWsNum "Standard Deviation:" stripped with
    | some v =>
      { st with data := { st.data with decomp_metrics :=
        { st.data.decomp_metrics with std_deviation := safeFloat v } } }
    | none => st
  else if strHas stripped "Memory required for decomposition" then
    match searchLabelWsColonInt "Memory required for decomposition" stripped with
    | some v =>
      { st with data := { st.data with decomp_metrics :=
        { st.data.decomp_metrics with decomp_memory := safeInt v } } }
    | none => st
  else if strHas stripped "Additional dynamic memory" then
    match searchLabelWsColonInt "Additional dynamic memory required" stripped with
    | some v =>
      { st with data := { st.data with decomp_metrics :=
        { st.data.decomp_metrics with dynamic_memory := safeInt v } } }
    | none => st
  else if strHas stripped "m a s s" ∧ strHas stripped "p r o p e r t i e s" then
    match searchMassPartHeader stripped with
    | some v =>
      { st with data := { st.data with mass_properties :=
        st.data.mass_properties ++ [{ part_id := safeInt v }] } }
    | none => st
  else if st.data.mass_properties ≠ [] then
    { st with data := massFieldApply stripped st.data }
  else st

/-- The smallest-timestep capture and the remaining branches of the
`state == "BODY"` block (below the energy handling; none can raise). -/
def stepBodyRest (st : D3State) (stripped : String) : D3State :=
  if st.in_smallest_ts then
    match matchSmallestTsEntry (pyStrip stripped) with
    | some (ty, en, pn, tsv) =>
      { st with data := { st.data with smallest_timesteps :=
        st.data.smallest_timesteps ++
          [{ element_type := ty, element_number := safeInt en,
             part_number := safeInt pn, timestep := safeFloat tsv }] } }
    | none =>
      if pyStrip stripped = "" ∧ st.data.smallest_timesteps ≠ [] then
        { st with in_smallest_ts := false }
      else st
  else if strHas stripped "100 smallest timesteps" then
    { st with in_smallest_ts := true }
  else stepBodyDecomp st stripped

/-- BODY-phase handling of one (right-stripped) line
(`D3hspParser.parse`, the `state == "BODY"` block): phase-exit banners,
the `***` warning/error block, then the warning-context capture, with the
remaining branches delegated. -/
def stepBody (st : D3State) (stripped : String) : Except PyErr D3State :=
  if strHas stripped "T i m i n g   i n f o r m a t i o n" then
    .ok { st with phase := .TAIL, in_timing := true }
  else if strHas stripped "N o r m a l   t e r m i n a t i o n" then
    .ok { st with
      phase := .TAIL
      data := { st.data with termination :=
        { st.data.termination with status := .NORMAL } } }
  else if strHas stripped "E r r o r   t e r m i n a t i o n" then
    .ok { st with
      phase := .TAIL
      data := { st.data with termination :=
        { st.data.termination with status := .ERROR } } }
  else if strHas stripped "***" then
    match matchWarning stripped with
    | some cstr =>
      let code := safeInt cstr
      .ok { st with
        data := { st.data with warning_counts :=
          (pySet st.data.warning_counts code (pyGetD st.data.warning_counts code 0 + 1)) }
        last_warning_code := some code
        lines_after_warning := 0 }
    | none =>
      match matchErrorRE stripped with
      | some cstr =>
        let code := safeInt cstr
        .ok { st with
          data := { st.data with error_counts :=
            (pySet st.data.error_counts code (pyGetD st.data.error_counts code 0 + 1)) }
          last_warning_code := none }
      | none =>
        if strHas stripped "termination time reached" then
          .ok { st with data := { st.data with termination :=
            { st.data.termination with status := .NORMAL } } }
        else .ok st
  else
    match st.last_warning_code with
    | some code =>
      let n := st.lines_after_warning + 1
      if n ≤ 5 then
        let wm0 :=
          if pyMem st.data.warning_messages code then st.data.warning_messages
          else pySet st.data.warning_messages code ""
        let wm :=
          if pyGetD st.data.warning_counts code 0 ≤ 3 then
            pySet wm0 code (pyGetD wm0 code "" ++ pyStrip stripped ++ " ")
          else wm0
        let wi :=
          match searchTiedInterface stripped with
          | some istr =>
            let intf := safeInt istr
            let cur := pyGetD st.data.warning_interfaces code []
            pySet st.data.warning_interfaces code
              (if cur.contains intf then cur else cur ++ [intf])
          | none => st.data.warning_interfaces
        .ok { st with
          lines_after_warning := n
          data := { st.data with warning_messages := wm, warning_interfaces := wi } }
      else
        .ok { st with lines_after_warning := n, last_warning_code := none }
    | none =>
      if st.in_energy_block then
        match matchEnergyField stripped with
        | some (k, v) =>
          .ok { st with current_energy :=
            (pySet st.current_energy (pyLower (pyStrip k)) (safeFloat v)) }
        | none =>
          if pyStrip stripped = "" then
            match buildEnergySnapshot st.current_cycle_info st.current_energy with
            | .error e => .error e
            | .ok osnap =>
              let data :=
                match osnap with
                | some snap =>
                  { st.data with energy_snapshots := st.data.energy_snapshots ++ [snap] }
                | none => st.data
              .ok { st with data := data, in_energy_block := false, current_energy := [] }
          else .ok st
      else if strHas stripped "dt of cycle" then
        match searchDtCycle stripped with
        | some (c, et, en, pn) =>
          .ok { st with
            current_cycle_info := some
              { cycle := safeInt c, elem_type := et,
                elem_num := safeInt en, part_num := safeInt pn },
            current_energy := [],
            in_energy_block := true }
        | none => .ok st
      else .ok (stepBodyRest st stripped)

/-- The contact-header / contact-type capture at the bottom of the CONTACTS
handling. -/
def contactHeaderType (st : D3State) (stripped : String) : D3State :=
  match searchContactHeader stripped with
  | some v =>
    { st with data := { st.data with contact_ids :=
      st.data.contact_ids ++ [safeInt v] } }
  | none =>
    match searchContactType stripped with
    | some v =>
      match st.data.contact_ids.getLast? with
      | some lastId =>
        { st with data := { st.data with contact_types :=
          (pySet st.data.contact_types lastId (safeInt v)) } }
      | none => st
    | none => st

/-- CONTACTS-phase handling of one line; the first warning/error line
transitions to BODY and is handled there (the source's fall-through). -/
def stepContacts (st : D3State) (stripped : String) : Except PyErr D3State :=
  if strHas stripped "***" ∧ (strHas stripped "Warning" ∨ strHas stripped "Error") then
    stepBody { st with phase := .BODY } stripped
  else if strHas stripped "Contact summary" then
    .ok { st with in_contact_summary := true }
  else if st.in_contact_summary then
    if strHas stripped "Order #" then .ok st
    else
      match matchContactSummaryEntry stripped with
      | some (g1, g2, g3, g4) =>
        let type_raw := pyStrip g3
        let parts := pySplitWs type_raw
        let pfxnum : String × ℤ :=
          if parts.length = 2 then (parts.getD 0 "", safeInt (parts.getD 1 ""))
          else ("", safeInt (parts.getD 0 ""))
        .ok { st with data := { st.data with contact_definitions :=
          st.data.contact_definitions ++
            [{ order := safeInt g1, contact_id := safeInt g2,
               type_code := type_raw, type_number := pfxnum.2,
               type_pfx := pfxnum.1, title := pyStrip g4 }] } }
      | none =>
        if matchPartSeparator stripped then
          .ok { st with in_contact_summary := false }
        else .ok (contactHeaderType st stripped)
  else .ok (contactHeaderType st stripped)

/-- PART_DEFS-phase handling of one line: block accumulation between
separator rules, with flush on separator or phase exit. -/
def stepPartDefs (st : D3State) (stripped : String) : D3State :=
  if strHas stripped "c o n t a c t   i n t e r f a c e s" then
    let data :=
      if st.part_block ≠ [] then
        match parsePartBlock st.part_block with
        | some part => { st.data with parts := st.data.parts ++ [part] }
        | none => st.data
      else st.data
    { st with data := data, part_block := [], phase := .CONTACTS }
  else if matchPartSeparator stripped then
    if st.part_block ≠ [] then
      let data :=
        match parsePartBlock st.part_block with
        | some part => { st.data with parts := st.data.parts ++ [part] }
        | none => st.data
      { st with data := data, part_block := [] }
    else st
  else { st with part_block := st.part_block ++ [stripped] }

/-- CONTROL_INFO-phase handling of one line. -/
def stepControlInfo (st : D3State) (stripped : String) : D3State :=
  if strHas stripped "p a r t   d e f i n i t i o n s" then
    { st with phase := .PART_DEFS }
  else
    let data := parseModelSize stripped st.data
    let data := parseComputationOptions stripped data
    let data :=
      match searchMppProcs stripped with
      | some v => { data with header := { data.header with num_procs := safeInt v } }
      | none => data
    { st with data := data }

/-- KEYWORD_COUNTS-phase handling of one line. -/
def stepKeywordCounts (st : D3State) (stripped : String) : D3State :=
  if strHas stripped "c o n t r o l   i n f o r m a t i o n" then
    { st with phase := .CONTROL_INFO }
  else
    match matchKeywordCount stripped with
    | some (kwRaw, cntStr) =>
      let kw := pyStrip kwRaw
      let count := safeInt cntStr
      let data :=
        if count > 0 then
          { st.data with keyword_counts := pySet st.data.keyword_counts kw count }
        else st.data
      let data :=
        if strHas kw "PART_option card" then
          { data with model_size := { data.model_size with num_parts := count } }
        else data
      { st with data := data }
    | none =>
      match searchMppProcs stripped with
      | some v =>
        { st with data := { st.data with header :=
          { st.data.header with num_procs := safeInt v } } }
      | none => st

/-- HEADER-phase handling of one line. -/
def stepHeader (st : D3State) (stripped : String) : D3State :=
  let data := parseHeaderLine stripped st.data
  if strHas stripped "L I S T   O F   K E Y W O R D   C O U N T S" then
    { st with data := data, phase := .KEYWORD_COUNTS }
  else { st with data := data }

/-- The problem-time/cycle, CPU and datetime branches at the bottom of the
TAIL handling. -/
def stepTailEnd (st : D3State) (stripped : String) : D3State :=
  if strHas stripped "Problem time" then
    match searchLabelEqNum "Problem time" stripped with
    | some v =>
      { st with data := { st.data with termination :=
        { st.data.termination with actual_time := safeFloat v } } }
    | none => st
  else if strHas stripped "Problem cycle" then
    match searchToks1 [.tlit "Problem cycle", .tws1, .tlit "=", .tws1, tDigits]
        stripped with
    | some v =>
      { st with data := { st.data with termination :=
        { st.data.termination with total_cycles := safeInt v } } }
    | none => st
  else if strHas stripped "Total CPU time" then
    match searchTotalCpu stripped with
    | some v =>
      { st with data := { st.data with termination :=
        { st.data.termination with total_cpu_seconds := safeFloat v } } }
    | none => st
  else if strHas stripped "CPU time per zone cycle" then
    match searchPerZone "CPU time per zone cycle" stripped with
    | some v =>
      { st with data := { st.data with termination :=
        { st.data.termination with cpu_per_zone_cycle_ns := safeFloat v } } }
    | none => st
  else if strHas stripped "Clock time per zone cycle" then
    match searchPerZone "Clock time per zone cycle" stripped with
    | some v =>
      { st with data := { st.data with termination :=
        { st.data.termination with clock_per_zone_cycle_ns := safeFloat v } } }
    | none => st
  else if strHas stripped "Start time" then
    match searchDatetime "Start time" stripped with
    | some v =>
      { st with data := { st.data with termination :=
        { st.data.termination with start_datetime := v } } }
    | none => st
  else if strHas stripped "End time" then
    match searchDatetime "End time" stripped with
    | some v =>
      { st with data := { st.data with termination :=
        { st.data.termination with end_datetime := v } } }
    | none => st
  else if strHas stripped "Elapsed time" then
    match searchElapsed stripped with
    | some v =>
      { st with data := { st.data with termination :=
        { st.data.termination with elapsed_seconds := safeFloat v } } }
    | none => st
  else st

/-- The termination-status, mass-property and decomposition branches of
the TAIL handling. -/
def stepTailMass (st : D3State) (stripped : String) : D3State :=
  if strHas stripped "N o r m a l" ∧ strHas stripped "t e r m i n a t i o n" then
    { st with data := { st.data with termination :=
      { st.data.termination with status := .NORMAL } } }
  else if strHas stripped "E r r o r" ∧ strHas stripped "t e r m i n a t i o n" then
    { st with data := { st.data with termination :=
      { st.data.termination with status := .ERROR } } }
  else if strHas stripped "m a s s" ∧ strHas stripped "p r o p e r t i e s" then
    match searchMassPartHeader stripped with
    | some v =>
      { st with data := { st.data with mass_properties :=
        st.data.mass_properties ++ [{ part_id := safeInt v }] } }
    | none => st
  else if st.data.mass_properties ≠ [] ∧
      (strHas stripped "mass center" ∨ strHas stripped "total mass" ∨
        strHas stripped "i11" ∨ strHas stripped "i22" ∨ strHas stripped "i33") then
    { st with data := massFieldApply stripped st.data }
  else if strHas stripped "Minumum:" then
    match searchLabelWsNum "Minumum:" stripped with
    | some v =>
      { st with data := { st.data with decomp_metrics :=
        { st.data.decomp_metrics with min_cost := safeFloat v } } }
    | none => st
  else if strHas stripped "Maximum:" then
    match searchLabelWsNum "Maximum:" stripped with
    | some v =>
      { st with data := { st.data with decomp_metrics :=
        { st.data.decomp_metrics with max_cost := safeFloat v } } }
    | none => st
  else if strHas stripped "Standard Deviation:" then
    match searchLabelWsNum "Standard Deviation:" stripped with
    | some v =>
      { st with data := { st.data with decomp_metrics :=
        { st.data.decomp_metrics with std_deviation := safeFloat v } } }
    | none => st
  else if strHas stripped "Memory required for decomposition" then
    match searchLabelWsColonInt "Memory required for decomposition" stripped with
    | some v =>
      { st with data := { st.data with decomp_metrics :=
        { st.data.decomp_metrics with decomp_memory := safeInt v } } }
    | none => st
  else if strHas stripped "Additional dynamic memory" then
    match searchLabelWsColonInt "Additional dynamic memory required" stripped with
    | some v =>
      { st with data := { st.data with decomp_metrics :=
        { st.data.decomp_metrics with dynamic_memory := safeInt v } } }
    | none => st
  else stepTailEnd st stripped

/-- TAIL-phase handling of one line: the timing tables, then the
termination/mass/decomp branches. -/
def stepTail (st : D3State) (stripped : String) : D3State :=
  if st.in_timing then
    if strHas stripped "T o t a l s" ∧ ¬ (strHas stripped "C P U" = true) then
      { st with in_timing := false }
    else
      match matchInterfId stripped with
      | some (g1, g2, g3, g4, g5) =>
        { st with data := { st.data with contact_timing :=
          st.data.contact_timing ++
            [{ interface_id := safeInt g1, cpu_seconds := safeFloat g2,
               cpu_percent := safeFloat g3, clock_seconds := safeFloat g4,
               clock_percent := safeFloat g5 }] } }
      | none =>
        match matchTimingEntry stripped with
        | some (g1, g2, g3, g4, g5) =>
          { st with data := { st.data with performance :=
            st.data.performance ++
              [{ component := pyStrip g1, cpu_seconds := safeFloat g2,
                 cpu_percent := safeFloat g3, clock_seconds := safeFloat g4,
                 clock_percent := safeFloat g5 }] } }
        | none => st
  else if st.in_cpu_timing then
    if strHas stripped "T o t a l s" then { st with in_cpu_timing := false }
    else
      match matchCpuProc (pyStrip stripped) with
      | some (g1, g2, g3, g4) =>
        { st with data := { st.data with mpp_timing :=
          st.data.mpp_timing ++
            [{ processor_id := safeInt g1, hostname := g2,
               cpu_ratio := safeFloat g3, cpu_seconds := safeFloat g4 }] } }
      | none => st
  else if strHas stripped "C P U   T i m i n g" then
    { st with in_cpu_timing := true }
  else if strHas stripped "T i m i n g   i n f o r m a t i o n" then
    { st with in_timing := true }
  else stepTailMass st stripped

/-- One iteration of the `D3hspParser.parse` loop: right-strip the line and
dispatch on the current phase. -/
def d3Step (st : D3State) (line : String) : Except PyErr D3State :=
  let stripped := pyRstrip line
  match st.phase with
  | .HEADER => .ok (stepHeader st stripped)
  | .KEYWORD_COUNTS => .ok (stepKeywordCounts st stripped)
  | .CONTROL_INFO => .ok (stepControlInfo st stripped)
  | .PART_DEFS => .ok (stepPartDefs st stripped)
  | .CONTACTS => stepContacts st stripped
  | .BODY => stepBody st stripped
  | .TAIL => .ok (stepTail st stripped)

/-- Embedding of `D3hspParser.parse`: fold the per-line step over the
file's lines (the file is its sequence of text lines; the verbose progress
output is not modelled).  The result is the parsed record set, or the
propagated exception. -/
def d3hspParse (lines : List String) : Except PyErr D3hspData :=
  match lines.foldlM d3Step ({} : D3State) with
  | .ok st => .ok st.data
  | .error e => .error e

/-! ### mes-file parser (parsers/messag.py) -/

/-- Python `float(s)` (unguarded): raises `ValueError` when the literal
does not parse. -/
def pyFloatE (s : String) : Except PyErr Q :=
  match pyFloatOfString s with
  | some q => .ok q
  | none => .error .valueError

/-- Leftmost match over a list of alternative token sequences, tried in
order at each position (regex alternation under `re.search`). -/
def searchAltToks (tss : List (List RTok)) (s : String) : Option (List String) :=
  (searchL (fun cs =>
    tss.foldl (fun acc ts =>
      match acc with
      | some r => some r
      | none => runToks ts cs) none) s.toList).map (fun r => r.1)

/-- RE_INIT_PENETRATION (search):
`(\d+)\s+initial penetrations? (?:were|was) found for interface\s+(\d+)`.
The optional plural `s` and the `were|was` alternation expand to four
literal branches in the regex's backtracking order. -/
def searchInitPenetration (s : String) : Option (String × String) :=
  match searchAltToks
    [[tDigits, .tws1,
      .tlit "initial penetrations were found for interface", .tws1, tDigits],
     [tDigits, .tws1,
      .tlit "initial penetrations was found for interface", .tws1, tDigits],
     [tDigits, .tws1,
      .tlit "initial penetration were found for interface", .tws1, tDigits],
     [tDigits, .tws1,
      .tlit "initial penetration was found for interface", .tws1, tDigits]] s with
  | some [g1, g2] => some (g1, g2)
  | _ => none

/-- RE_NORMAL_TERM (search): `N o r m a l\s+t e r m i n a t i o n`. -/
def searchNormalTerm (s : String) : Bool :=
  searchToks0 [.tlit "N o r m a l", .tws1, .tlit "t e r m i n a t i o n"] s

/-- RE_ERROR_TERM (search): `E r r o r\s+t e r m i n a t i o n`. -/
def searchErrorTerm (s : String) : Bool :=
  searchToks0 [.tlit "E r r o r", .tws1, .tlit "t e r m i n a t i o n"] s

/-- RE_MEMORY_EXPAND (search):
`(?:expanding|allocating|contracting)\s+memory to\s+(\d+)\s+d\s+(\d+)`. -/
def searchMemoryExpand (s : String) : Option (String × String) :=
  match searchAltToks
    [[.tlit "expanding", .tws1, .tlit "memory to", .tws1, tDigits, .tws1,
      .tlit "d", .tws1, tDigits],
     [.tlit "allocating", .tws1, .tlit "memory to", .tws1, tDigits, .tws1,
      .tlit "d", .tws1, tDigits],
     [.tlit "contracting", .tws1, .tlit "memory to", .tws1, tDigits, .tws1,
      .tlit "d", .tws1, tDigits]] s with
  | some [g1, g2] => some (g1, g2)
  | _ => none

/-- RE_INTF_WARN_SUMMARY (search):
`Summary of warning messages for interface # =\s+(\d+)`. -/
def searchIntfWarnSummary (s : String) : Option String :=
  searchToks1
    [.tlit "Summary of warning messages for interface # =", .tws1, tDigits] s

/-- RE_INTF_WARN_COUNT (search): `number of warning messages\s+=\s+(\d+)`. -/
def searchIntfWarnCount (s : String) : Option String :=
  searchToks1 [.tlit "number of warning messages", .tws1, .tlit "=", .tws1,
    tDigits] s

/-- RE_SURF_HEADER (search):
`(surfa|surfb)\s+surface of interface\s+=\s+(\d+)`. -/
def searchSurfHeader (s : String) : Option (String × String) :=
  match searchL (fun cs =>
    match runToks [.tlit "surfa", .tws1, .tlit "surface of interface", .tws1,
        .tlit "=", .tws1, tDigits] cs with
    | some r => some ("surfa", r)
    | none =>
      match runToks [.tlit "surfb", .tws1, .tlit "surface of interface",
          .tws1, .tlit "=", .tws1, tDigits] cs with
      | some r => some ("surfb", r)
      | none => none) s.toList with
  | some (tag, [g2], _) => some (tag, g2)
  | _ => none

/-- RE_SURF_TYPE (search): `type\s+=\s+(.+)` (the greedy tail runs to the
end of the line). -/
def searchSurfType (s : String) : Option String :=
  searchToks1 [.tlit "type", .tws1, .tlit "=", .tws1,
    .tgrp (fun _ => true)] s

/-- RE_SURF_TIMESTEP (search): `surface timestep\s+=\s+([\d.E+\-]+)`. -/
def searchSurfTimestep (s : String) : Option String :=
  searchToks1 [.tlit "surface timestep", .tws1, .tlit "=", .tws1, tNum] s

/-- RE_SURF_CTRL_NODE (search):
`controlling\s+surf[ab]\s+node ID\s+=\s+(\d+)`. -/
def searchSurfCtrlNode (s : String) : Option String :=
  match searchAltToks
    [[.tlit "controlling", .tws1, .tlit "surfa", .tws1, .tlit "node ID",
      .tws1, .tlit "=", .tws1, tDigits],
     [.tlit "controlling", .tws1, .tlit "surfb", .tws1, .tlit "node ID",
      .tws1, .tlit "=", .tws1, tDigits]] s with
  | some [g1] => some g1
  | _ => none

/-- RE_SURF_CTRL_PART (search):
`part ID of\s+surf[ab]\s+node\s+=\s+(\d+)`. -/
def searchSurfCtrlPart (s : String) : Option String :=
  match searchAltToks
    [[.tlit "part ID of", .tws1, .tlit "surfa", .tws1, .tlit "node", .tws1,
      .tlit "=", .tws1, tDigits],
     [.tlit "part ID of", .tws1, .tlit "surfb", .tws1, .tlit "node", .tws1,
      .tlit "=", .tws1, tDigits]] s with
  | some [g1] => some g1
  | _ => none

/-- RE_CONTACT_DT_LIMIT (search):
`time step size should not exceed\s+([\d.E+\-]+)`. -/
def searchContactDtLimit (s : String) : Option String :=
  searchToks1 [.tlit "time step size should not exceed", .tws1, tNum] s

/-- RE_SMALLEST_TS_ENTRY, searched form (messag.py uses `.search` where
d3hsp.py uses `.match`):
`(solid|shell|beam|tshell)\s+(\d+)\s+(\d+)\s+([\d.E+\-]+)`. -/
def searchSmallestTsEntryS (s : String) :
    Option (String × String × String × String) :=
  match searchL (fun cs =>
    let tailToks : List RTok := [.tws1, tDigits, .tws1, tDigits, .tws1, tNum]
    match lit "solid" cs with
    | some r => (runToks tailToks r).map (fun p => ("solid", p))
    | none =>
      match lit "shell" cs with
      | some r => (runToks tailToks r).map (fun p => ("shell", p))
      | none =>
        match lit "beam" cs with
        | some r => (runToks tailToks r).map (fun p => ("beam", p))
        | none =>
          match lit "tshell" cs with
          | some r => (runToks tailToks r).map (fun p => ("tshell", p))
          | none => none) s.toList with
  | some (ty, ([g2, g3, g4], _)) => some (ty, g2, g3, g4)
  | _ => none

/-- The loop state of `parse_mes_file`. -/
structure MesState where
  data : MessagData := {}
  pending_intf_id : Option ℤ := none
  in_timestep_section : Bool := false
  current_surf : Option InterfaceSurfaceTimestep := none
deriving DecidableEq

/-- The flush of a completed surface-timestep block: appended only when
`controlling_node_id >= 0`, with `is_active` set from the
`surface_timestep < 1e15` test. -/
def mesFlushSurf (d : MessagData) (cur : Option InterfaceSurfaceTimestep) :
    MessagData :=
  match cur with
  | some surf =>
    if 0 ≤ surf.controlling_node_id then
      { d with interface_surface_timesteps :=
          d.interface_surface_timesteps ++
            [{ surf with is_active :=
                (decide (surf.surface_timestep < Q.ofInt (ipow 10 15))) }] }
    else d
  | none => d

/-- The warning/error/penetration/termination/memory section of the
`parse_mes_file` loop body (the captured `\d+` groups make the raw `int`
conversions total, so `safeInt` coincides with them). -/
def mesStepTail (st : MesState) (stripped : String) : MesState :=
  match matchWarning stripped with
  | some cstr =>
    { st with data := { st.data with warning_counts :=
        (pySet st.data.warning_counts (safeInt cstr)
          (pyGetD st.data.warning_counts (safeInt cstr) 0 + 1)) } }
  | none =>
  match matchErrorRE stripped with
  | some cstr =>
    { st with data := { st.data with error_counts :=
        (pySet st.data.error_counts (safeInt cstr)
          (pyGetD st.data.error_counts (safeInt cstr) 0 + 1)) } }
  | none =>
    let d6 :=
      match searchInitPenetration stripped with
      | some g =>
        { st.data with initial_penetrations :=
            (recordInitPenetration st.data.initial_penetrations
              (safeInt g.1) (safeInt g.2)) }
      | none => st.data
    match searchIntfWarnSummary stripped with
    | some g => { st with data := d6, pending_intf_id := some (safeInt g) }
    | none =>
      let pw : List (ℤ × ℤ) × Option ℤ :=
        match st.pending_intf_id with
        | some pid =>
          match searchIntfWarnCount stripped with
          | some g => (pySet d6.interface_warning_counts pid (safeInt g), none)
          | none =>
            if pyStrip stripped ≠ "" then (d6.interface_warning_counts, none)
            else (d6.interface_warning_counts, some pid)
        | none => (d6.interface_warning_counts, none)
      let d7 := { d6 with interface_warning_counts := pw.1 }
      let d8 :=
        if searchNormalTerm stripped then { d7 with normal_termination := true }
        else d7
      let d9 :=
        if searchErrorTerm stripped then { d8 with error_termination := true }
        else d8
      let d10 :=
        match searchMemoryExpand stripped with
        | some g =>
          let mem := safeInt g.2
          if mem > d9.max_memory_d then { d9 with max_memory_d := mem } else d9
        | none => d9
      { st with data := d10, pending_intf_id := pw.2 }

/-- The contact-dt-limit check of the loop body (rank 0 only): store the
limit, then flush the pending surface block if complete. -/
def mesStepDt (st : MesState) (stripped : String) : Except PyErr MesState :=
  match searchContactDtLimit stripped with
  | some g =>
    match pyFloatE g with
    | .error e => .error e
    | .ok q =>
      let d := { st.data with contact_dt_limit := q }
      match st.current_surf with
      | some surf =>
        if 0 ≤ surf.controlling_node_id then
          .ok { st with
            data := (mesFlushSurf d st.current_surf)
            current_surf := none }
        else .ok { st with data := d }
      | none => .ok { st with data := d }
  | none => .ok (mesStepTail st stripped)

/-- The rank-0 surface-timestep block section of the loop body, falling
through to the contact-dt check and then the common tail section. -/
def mesStepSurf (rank : ℤ) (st : MesState) (stripped : String) :
    Except PyErr MesState :=
  if rank = 0 then
    match searchSurfHeader stripped with
    | some g =>
      .ok { st with
        data := mesFlushSurf st.data st.current_surf
        current_surf := some { interface_id := safeInt g.2, surface := g.1 } }
    | none =>
      match st.current_surf with
      | some surf =>
        match searchSurfType stripped with
        | some g =>
          .ok { st with current_surf := some { surf with type_code := pyStrip g } }
        | none =>
        match searchSurfTimestep stripped with
        | some g =>
          match pyFloatE g with
          | .error e => .error e
          | .ok q =>
            .ok { st with current_surf := some { surf with surface_timestep := q } }
        | none =>
        match searchSurfCtrlNode stripped with
        | some g =>
          .ok { st with current_surf :=
            (some { surf with controlling_node_id := safeInt g }) }
        | none =>
        match searchSurfCtrlPart stripped with
        | some g =>
          .ok { st with current_surf := some { surf with part_id := safeInt g } }
        | none => mesStepDt st stripped
      | none => mesStepDt st stripped
  else .ok (mesStepTail st stripped)

/-- One iteration of the `parse_mes_file` loop: right-strip the line,
handle the per-processor smallest-timestep table (a closing line falls
through to the rest of the body), then the rank-0 surface section and the
common tail. -/
def mesStep (rank : ℤ) (st : MesState) (line : String) :
    Except PyErr MesState :=
  let stripped := pyRstrip line
  if strHas stripped "100 smallest timesteps" then
    .ok { st with in_timestep_section := true }
  else if st.in_timestep_section then
    match searchSmallestTsEntryS stripped with
    | some g =>
      match pyFloatE g.2.2.2 with
      | .error e => .error e
      | .ok q =>
        .ok { st with data := { st.data with smallest_timesteps :=
          st.data.smallest_timesteps ++
            [{ element_type := g.1, element_number := safeInt g.2.1,
               part_number := safeInt g.2.2.1, timestep := q,
               processor_id := rank }] } }
    | none =>
      if pyStrip stripped = "" ∨ strHas (pyLower stripped) "element" ∨
          pyStartswith (pyStrip stripped) "---" then
        .ok st
      else mesStepSurf rank { st with in_timestep_section := false } stripped
  else mesStepSurf rank st stripped

/-- Embedding of `parse_mes_file`: fold the loop body over the file's
lines, then flush any remaining rank-0 surface block. -/
def parseMesFile (rank : ℤ) (lines : List String) : Except PyErr MessagData :=
  match lines.foldlM (mesStep rank) ({ data := { rank := rank } } : MesState) with
  | .ok st =>
    .ok (if rank = 0 then mesFlushSurf st.data st.current_surf else st.data)
  | .error e => .error e

/-! ### Contact / performance / failure-source analyzers
(analysis/contact.py, analysis/performance.py,
analysis/failure_analysis.py) -/

/-- Python `sum` over a float list: left fold from `0`. -/
def qsum (l : List Q) : Q :=
  l.foldl (fun a b => a + b) 0

/-- Python `min` over a float list: first minimal element, `none` when
empty. -/
def qminL (l : List Q) : Option Q :=
  l.foldl (fun acc x =>
    match acc with
    | none => some x
    | some m => if x < m then some x else some m) none

/-- Python `max` over a float list: first maximal element, `none` when
empty. -/
def qmaxL (l : List Q) : Option Q :=
  l.foldl (fun acc x =>
    match acc with
    | none => some x
    | some m => if m < x then some x else some m) none

def CONTACT_TIME_WARN : Q := 0.40

def CONTACT_TIME_INFO : Q := 0.20

/-- `sorted(contact_timing, key=clock_seconds, reverse=True)[0]`: the
first element attaining the maximal clock time (the reverse sort is
stable). -/
def pyMaxByClock (l : List ContactTiming) : Option ContactTiming :=
  l.foldl (fun acc ct =>
    match acc with
    | none => some ct
    | some m => if ct.clock_seconds > m.clock_seconds then some ct else some m)
    none

/-- Embedding of `analyze_contacts` (`analysis/contact.py`).  The contact
type table feeds only the elided description text, so it is not consulted
here. -/
def analyze_contacts (contact_timing : List ContactTiming)
    (total_clock_seconds : Q) : List Finding :=
  if contact_timing = [] then []
  else
    let total_contact_clock := qsum (contact_timing.map (fun ct => ct.clock_seconds))
    let total_contact_pct := qsum (contact_timing.map (fun ct => ct.clock_percent))
    let contact_ratio : Q :=
      if total_clock_seconds > 0 then total_contact_clock / total_clock_seconds
      else if total_contact_pct > 0 then total_contact_pct / 100 else 0
    let ratioFindings : List Finding :=
      if contact_ratio > CONTACT_TIME_WARN then
        [{ severity := .WARNING, category := "contact",
           title := "Contact dominates computation time (" ++
             fmtQ contact_ratio ++ ")" }]
      else if contact_ratio > CONTACT_TIME_INFO then
        [{ severity := .INFO, category := "contact",
           title := "Contact uses " ++ fmtQ contact_ratio ++ " of total time" }]
      else []
    let topFindings : List Finding :=
      match pyMaxByClock contact_timing with
      | some top =>
        if total_contact_clock > 0 then
          if top.clock_seconds / total_contact_clock > 0.5 then
            [{ severity := .INFO, category := "contact",
               title := "Interface " ++ toString top.interface_id ++
                 " dominates contact cost" }]
          else []
        else []
      | none => []
    ratioFindings ++ topFindings

def MPP_IMBALANCE_WARN : Q := 0.15

def SHARING_OVERHEAD_WARN : Q := 0.25

/-- Embedding of `analyze_performance` (`analysis/performance.py`) for the
modelled input set: the load-profile file is absent, so its block (guarded
by a non-empty profile list) is vacuous and its parameter is dropped. -/
def analyze_performance (timing : List PerformanceTiming)
    (mpp_timing : List MPPProcessorTiming) : List Finding :=
  let bottleneck : List Finding :=
    timing.foldl (fun acc pt =>
      if pt.clock_percent > 25 then
        acc ++ [{ severity := .INFO, category := "performance",
                  title := pt.component ++ " is the primary cost (" ++
                    (fmtQ pt.clock_percent) ++ "%)" }]
      else acc) []
  let sharing_total : Q := qsum ((timing.filter (fun pt =>
      strHas (pyLower pt.component) "sharing" ∨
        strHas (pyLower pt.component) "shr")).map (fun pt => pt.clock_percent))
  let sharingFindings : List Finding :=
    if sharing_total > SHARING_OVERHEAD_WARN * 100 then
      [{ severity := .WARNING, category := "performance",
         title := "High MPI sharing overhead (" ++ fmtQ sharing_total ++ "%)" }]
    else []
  let mppFindings : List Finding :=
    match mpp_timing with
    | [] => []
    | _ =>
      match qminL (mpp_timing.map (fun m => m.cpu_ratio)),
          qmaxL (mpp_timing.map (fun m => m.cpu_ratio)) with
      | some mn, some mx =>
        if mx - mn > MPP_IMBALANCE_WARN then
          [{ severity := .WARNING, category := "performance",
             title := "MPP load imbalance: " ++ fmtQ (mx - mn) }]
        else
          [{ severity := .INFO, category := "performance",
             title := "MPP load balance: good (imbalance " ++
               fmtQ (mx - mn) ++ ")" }]
      | _, _ => []
  bottleneck ++ sharingFindings ++ mppFindings

/-- Embedding of `analyze_failure_source` for the modelled input set:
there is no `messag`/`message`/`MESSAG` file and no input deck in the
result directory, so `_parse_failed_elements` yields `[]`, the
element-to-part map is empty, and only the timestep-bottleneck block
remains (its `min_dt` feeds only the elided description text). -/
def analyze_failure_source (smallest_timesteps : List TimestepEntry) :
    List Finding :=
  if smallest_timesteps = [] then []
  else
    let part_counts : List (ℤ × ℤ) := smallest_timesteps.foldl
      (fun d ts => pySet d ts.part_number (pyGetD d ts.part_number 0 + 1)) []
    let total : ℤ := (part_counts.map (fun p => p.2)).sum
    part_counts.foldl (fun acc p =>
      let ratio : Q := if total > 0 then Q.ofInt p.2 / Q.ofInt total else 0
      if ratio > 0.8 then
        acc ++ [{ severity := .WARNING, category := "performance_bottleneck",
                  title := "Part " ++ toString p.1 ++
                    ": timestep bottleneck (" ++ (fmtQ ratio) ++ ")" }]
      else acc) []

/-! ### The parse-and-analyze pipeline (analyzer.py, `Analyzer.run`) -/

/-- The Report fields assembled by `Analyzer.run` from the modelled input
set (a d3hsp file and the per-rank mes files).  The glstat, status.out,
profile-CSV, nodout and bndout files are absent from the modelled inputs,
so — exactly as in the code — their parsers are skipped and their
analyzers contribute nothing; the scaling projections (which need
`math.sqrt`) are not modelled. -/
structure ReportK where
  header : SimulationHeader := {}
  model_size : ModelSize := {}
  termination : TerminationInfo := {}
  parts : List PartDefinition := []
  performance : List PerformanceTiming := []
  contact_timing : List ContactTiming := []
  mpp_timing : List MPPProcessorTiming := []
  keyword_counts : List (String × ℤ) := []
  contact_definitions : List ContactDefinition := []
  decomp_metrics : DecompMetrics := {}
  mass_properties : List MassProperty := []
  interface_warning_counts : List (ℤ × ℤ) := []
  initial_penetrations : List (ℤ × ℤ) := []
  memory_per_rank : List ℤ := []
  interface_surface_timesteps : List InterfaceSurfaceTimestep := []
  contact_dt_limit : Q := 0
  energy : EnergyAnalysis := {}
  timestep : TimestepAnalysis := {}
  warnings : List WarningEntry := []
  findings : List Finding := []
deriving DecidableEq

/-- The input files of one run: the d3hsp text (absent file = `none`) and
the discovered mes files as (rank, text) pairs in discovery order. -/
structure AnalyzerInputs where
  d3hsp : Option (List String) := none
  mes : List (ℤ × List String) := []
deriving DecidableEq

/-- Embedding of `Analyzer.run` over the modelled input set: parse the
d3hsp and mes files, populate the report fields, wire the mes data
(rank-0 interface warnings, merged penetrations, per-rank memory, rank-0
surface timesteps and contact dt limit, element-to-processor mapping),
run the analyzers, and aggregate the findings. -/
def analyzerRun (inp : AnalyzerInputs) : Except PyErr ReportK :=
  match (match inp.d3hsp with
         | none => Except.ok (none : Option D3hspData)
         | some ls => (d3hspParse ls).map some) with
  | .error e => .error e
  | .ok od3 =>
    match inp.mes.mapM (fun p => parseMesFile p.1 p.2) with
    | .error e => .error e
    | .ok mes_data =>
      let dd : D3hspData := match od3 with | some d => d | none => {}
      let iwc := match mes_data with
        | md0 :: _ => md0.interface_warning_counts
        | [] => []
      let pens := if mes_data ≠ [] then mergeInitialPenetrations mes_data else []
      let mpr := mes_data.map (fun md => md.max_memory_d)
      let rank0 := mes_data.find? (fun md => md.rank = 0)
      let ists := match rank0 with
        | some r0 => r0.interface_surface_timesteps
        | none => []
      let cdl : Q := match rank0 with
        | some r0 => r0.contact_dt_limit
        | none => 0
      let elem_to_proc : List ((String × ℤ) × ℤ) :=
        mes_data.foldl (fun m md =>
          md.smallest_timesteps.foldl (fun m ts =>
            if pyMem m (ts.element_type, ts.element_number) then m
            else pySet m (ts.element_type, ts.element_number) ts.processor_id)
            m) []
      let energy_analysis := analyze_energy dd.energy_snapshots
      let ts0 := analyze_timestep dd.smallest_timesteps dd.energy_snapshots
          dd.dt_scale_factor dd.dt2ms dd.tsmin
      let ts1 :=
        if mes_data ≠ [] then
          { ts0 with smallest_timesteps := ts0.smallest_timesteps.map (fun ts =>
              match pyGet elem_to_proc (ts.element_type, ts.element_number) with
              | some pid => { ts with processor_id := pid }
              | none => ts) }
        else ts0
      let wpair := analyze_warnings dd.warning_counts dd.warning_messages
          dd.warning_interfaces dd.error_counts dd.error_messages
      let contact_findings :=
        analyze_contacts dd.contact_timing dd.termination.elapsed_seconds
      let perf_findings := analyze_performance dd.performance dd.mpp_timing
      let failure_findings := analyze_failure_source dd.smallest_timesteps
      let all_findings := run_diagnostics dd.termination
          energy_analysis.findings ts1.findings wpair.2 contact_findings
          (perf_findings ++ failure_findings) cdl ts1.min_dt ists
          dd.mass_properties dd.decomp_metrics wpair.1
          energy_analysis.snapshots
      .ok { header := dd.header, model_size := dd.model_size,
            termination := dd.termination, parts := dd.parts,
            performance := dd.performance,
            contact_timing := dd.contact_timing,
            mpp_timing := dd.mpp_timing,
            keyword_counts := dd.keyword_counts,
            contact_definitions := dd.contact_definitions,
            decomp_metrics := dd.decomp_metrics,
            mass_properties := dd.mass_properties,
            interface_warning_counts := iwc, initial_penetrations := pens,
            memory_per_rank := mpr, interface_surface_timesteps := ists,
            contact_dt_limit := cdl, energy := energy_analysis,
            timestep := ts1, warnings := wpair.1, findings := all_findings }

/-! ### Concrete inputs for the claim scenarios -/

/-- A minimal d3hsp log: the four phase banners, an error marker entering
the BODY phase, then a single energy block with `hourglass=60` and
`internal=100`, closed by a blank line. -/
def c6Lines : List String :=
  [" L I S T   O F   K E Y W O R D   C O U N T S",
   " c o n t r o l   i n f o r m a t i o n",
   " p a r t   d e f i n i t i o n s",
   " c o n t a c t   i n t e r f a c e s",
   " *** Error 10000",
   " dt of cycle       1 is controlled by shell          10 of part          2",
   " hourglass energy.........................  6.00000E+01",
   " internal energy..........................  1.00000E+02",
   ""]

/-- A d3hsp log whose energy block captures the field
`time per zone cycle.(nanosec)` with the out-of-range literal `1E999`
(`float` yields infinity, `int` of it raises `OverflowError`). -/
def c2Lines : List String :=
  [" L I S T   O F   K E Y W O R D   C O U N T S",
   " c o n t r o l   i n f o r m a t i o n",
   " p a r t   d e f i n i t i o n s",
   " c o n t a c t   i n t e r f a c e s",
   " *** Error 10000",
   " dt of cycle       1 is controlled by shell          10 of part          2",
   " time per zone cycle.(nanosec)..    1E999",
   ""]

/-- A d3hsp log whose smallest-timestep table holds a matching row, then a
non-matching non-blank line, then another matching row. -/
def c3Lines : List String :=
  [" L I S T   O F   K E Y W O R D   C O U N T S",
   " c o n t r o l   i n f o r m a t i o n",
   " p a r t   d e f i n i t i o n s",
   " c o n t a c t   i n t e r f a c e s",
   " *** Error 10000",
   " 100 smallest timesteps",
   "    shell     123       7  1.23456E-04",
   " some unrelated line",
   "    shell     124       7  1.23456E-04",
   ""]

/-- The rows of the `c3Lines` table, as seen after its banner. -/
def c3Rows : List String :=
  ["    shell     123       7  1.23456E-04",
   " some unrelated line",
   "    shell     124       7  1.23456E-04",
   ""]

/-- SPEC MODEL (from the spec's words, not from the code): after the
banner opens table-capture mode, every row matching the element/part/dt
pattern is appended, and the first non-matching, non-blank line closes the
mode.  This function counts the rows the spec says are captured. -/
def specCaptureCount : List String → ℕ
  | [] => 0
  | l :: rest =>
    match matchSmallestTsEntry (pyStrip (pyRstrip l)) with
    | some _ => 1 + specCaptureCount rest
    | none => if pyStrip (pyRstrip l) = "" then specCaptureCount rest else 0

/-- A BODY-phase parser state with smallest-timestep capture mode open and
one row already captured. -/
def c3OpenState : D3State :=
  { phase := .BODY
    in_smallest_ts := true
    data := { smallest_timesteps :=
      [{ element_type := "shell", element_number := 123, part_number := 7,
         timestep := safeFloat "1.23456E-04" }] } }

/-- Two per-rank message summaries reporting initial penetrations
`{interface 3: 5}` and `{interface 3: 7}`. -/
def c8Ranks : List MessagData :=
  [{ rank := 0, initial_penetrations := [(3, 5)] },
   { rank := 1, initial_penetrations := [(3, 7)] }]

/-- A concrete run input: a d3hsp log and two per-rank mes files. -/
def c9Input : AnalyzerInputs :=
  { d3hsp := some
      [" L I S T   O F   K E Y W O R D   C O U N T S",
       " c o n t r o l   i n f o r m a t i o n",
       " p a r t   d e f i n i t i o n s",
       " c o n t a c t   i n t e r f a c e s",
       " *** Warning 50135",
       ""]
    mes :=
      [(0, ["      25 initial penetrations were found for interface        3"]),
       (1, ["       7 initial penetrations was found for interface        3"])] }

/-! ### The energy-block counting abstraction (for the snapshot-count
invariant of `D3hspParser.parse`) -/

/-- The abstract state that determines how many energy snapshots the BODY
phase has emitted: the phase, the warning-context counter (lines after a
`***` warning are swallowed), whether an energy block is open, whether it
has captured at least one field, whether a `dt of cycle` header has ever
set the cycle-info dict, and the number of emitted snapshots. -/
structure EBCState where
  phase : D3Phase := .HEADER
  warn : Option ℕ := none
  inEnergy : Bool := false
  energyNE : Bool := false
  hasCycle : Bool := false
  count : ℕ := 0
deriving DecidableEq

/-- The abstraction of a parser state. -/
def ebcProj (st : D3State) : EBCState :=
  { phase := st.phase
    warn :=
      match st.last_warning_code with
      | some _ => some st.lines_after_warning
      | none => none
    inEnergy := st.in_energy_block
    energyNE := !st.current_energy.isEmpty
    hasCycle := st.current_cycle_info.isSome
    count := st.data.energy_snapshots.length }

/-- The BODY-phase transitions of the abstraction: the branches of
`stepBody` that touch the abstract fields, with the field-preserving
branches collapsed into the final no-op. -/
def ebcBody (e : EBCState) (stripped : String) : EBCState :=
  if strHas stripped "T i m i n g   i n f o r m a t i o n" then
    { e with phase := .TAIL }
  else if strHas stripped "N o r m a l   t e r m i n a t i o n" then
    { e with phase := .TAIL }
  else if strHas stripped "E r r o r   t e r m i n a t i o n" then
    { e with phase := .TAIL }
  else if strHas stripped "***" then
    match matchWarning stripped with
    | some _ => { e with warn := some 0 }
    | none =>
      match matchErrorRE stripped with
      | some _ => { e with warn := none }
      | none => e
  else
    match e.warn with
    | some n =>
      if n + 1 ≤ 5 then { e with warn := some (n + 1) }
      else { e with warn := none }
    | none =>
      if e.inEnergy then
        match matchEnergyField stripped with
        | some _ => { e with energyNE := true }
        | none =>
          if pyStrip stripped = "" then
            { e with
              count := e.count + (if e.hasCycle ∧ e.energyNE then 1 else 0)
              inEnergy := false
              energyNE := false }
          else e
      else if strHas stripped "dt of cycle" then
        match searchDtCycle stripped with
        | some _ => { e with hasCycle := true, inEnergy := true, energyNE := false }
        | none => e
      else e

/-- One abstract step: phase banners advance the phase, the CONTACTS
early-warning hand-off enters the BODY handling, the BODY phase runs
`ebcBody`, everything else is a no-op. -/
def ebcStep (e : EBCState) (line : String) : EBCState :=
  let stripped := pyRstrip line
  if e.phase = .HEADER then
    if strHas stripped "L I S T   O F   K E Y W O R D   C O U N T S" then
      { e with phase := .KEYWORD_COUNTS }
    else e
  else if e.phase = .KEYWORD_COUNTS then
    if strHas stripped "c o n t r o l   i n f o r m a t i o n" then
      { e with phase := .CONTROL_INFO }
    else e
  else if e.phase = .CONTROL_INFO then
    if strHas stripped "p a r t   d e f i n i t i o n s" then
      { e with phase := .PART_DEFS }
    else e
  else if e.phase = .PART_DEFS then
    if strHas stripped "c o n t a c t   i n t e r f a c e s" then
      { e with phase := .CONTACTS }
    else e
  else if e.phase = .CONTACTS then
    if strHas stripped "***" ∧
        (strHas stripped "Warning" ∨ strHas stripped "Error") then
      ebcBody { e with phase := .BODY } stripped
    else e
  else if e.phase = .BODY then ebcBody e stripped
  else e

/-- The number of blank-line-closed, non-empty energy blocks of the BODY
section: the snapshot count predicted by the abstract machine. -/
def countEnergyBlocks (lines : List String) : ℕ :=
  (lines.foldl ebcStep {}).count

/-- A log with one blank-line-closed energy block and a second block still
open at end of file (it is discarded without a snapshot). -/
def c10Lines : List String :=
  [" L I S T   O F   K E Y W O R D   C O U N T S",
   " c o n t r o l   i n f o r m a t i o n",
   " p a r t   d e f i n i t i o n s",
   " c o n t a c t   i n t e r f a c e s",
   " *** Error 10000",
   " dt of cycle       1 is controlled by shell          10 of part          2",
   " internal energy..........................  1.00000E+02",
   "",
   " dt of cycle       2 is controlled by shell          10 of part          2",
   " kinetic energy...........................  5.00000E+01"]

/-- The parse result of `c10Lines` (used to witness the snapshot-count
invariant; the junk default is unreachable since the parse succeeds). -/
def c10Data : D3hspData :=
  match d3hspParse c10Lines with
  | .ok d => d
  | .error _ => {}

/-! ### Claim theorems -/

/-- C1: for every termination info and every collection of analyzer
Finding lists passed to `run_diagnostics`, the returned list is sorted
non-decreasingly by severity under the mapping CRITICAL=0, WARNING=1,
INFO=2 (`sevRank`; the enum is exhausted, so the dict default 3 is
unreachable), and for every severity rank the subsequence of findings of
that rank equals, in order, the corresponding subsequence of the assembled
pre-sort list `runDiagnosticsPre` — i.e. equal-severity findings keep
their insertion order (the sort is stable). -/
theorem C1_run_diagnostics_sorted_stable (termination : TerminationInfo)
    (ef tf wf cf pf : List Finding) (cdl mdt : Q)
    (ists : List InterfaceSurfaceTimestep) (mp : List MassProperty)
    (dm : DecompMetrics) (ws : List WarningEntry) (es : List EnergySnapshot)
    (perf : List PerformanceTiming) (sts : List TimestepEntry)
    (parts : List PartDefinition) :
    List.Sorted sevLe
      (run_diagnostics termination ef tf wf cf pf cdl mdt ists mp dm ws es
        perf sts parts) ∧
    ∀ k : ℕ,
      (run_diagnostics termination ef tf wf cf pf cdl mdt ists mp dm ws es
          perf sts parts).filter (fun f => sevRank f = k) =
        (runDiagnosticsPre termination ef tf wf cf pf cdl mdt ists mp dm ws
          es perf sts parts).filter (fun f => sevRank f = k) :=
  ⟨pySortFindings_sorted _, fun k => pySortFindings_stable _ k⟩

theorem pyGet_eq_none_of_not_mem {κ ν : Type} [DecidableEq κ]
    (d : List (κ × ν)) (k : κ) (h : pyMem d k = false) :
    pyGet d k = none := by
  induction d with
  | nil => rfl
  | cons p rest ih =>
    simp only [pyMem, List.any_cons, Bool.or_eq_false_iff] at h
    simp only [pyGet, List.find?]
    have hp : (decide (p.1 = k)) = false := by simpa using h.1
    rw [hp]
    exact ih (by simpa [pyMem] using h.2)

/-- C5: for every integer code not present in the knowledge base,
`lookup_error` returns a synthesized entry whose severity is CRITICAL below
20000, WARNING from 20000 through 59999 inclusive, and INFO above, with
the generic description; being a total function, it never fails. -/
theorem C5_lookup_error_unknown (code : ℤ)
    (h : pyMem ERROR_DATABASE code = false) :
    (lookup_error code).severity =
      (if code < 20000 then Severity.CRITICAL
       else if code ≤ 59999 then Severity.WARNING
       else Severity.INFO) ∧
    (lookup_error code).description =
      "Warning/Error code " ++ toString code ++ " (not in built-in database)." := by
  have hget := pyGet_eq_none_of_not_mem ERROR_DATABASE code h
  constructor
  · simp only [lookup_error, hget]
    rcases lt_or_le code 20000 with h1 | h1
    · simp [h1]
    · rcases lt_or_le code 40000 with h2 | h2
      · simp [h1.not_lt, h2, show code ≤ 59999 by omega]
      · rcases lt_or_le code 50000 with h3 | h3
        · simp [h1.not_lt, h2.not_lt, h3, show code ≤ 59999 by omega]
        · rcases lt_or_le code 60000 with h4 | h4
          · simp [h1.not_lt, h2.not_lt, h3.not_lt, h4,
              show code ≤ 59999 by omega]
          · simp [h1.not_lt, h2.not_lt, h3.not_lt, h4.not_lt,
              show ¬ code ≤ 59999 by omega]
  · simp [lookup_error, hget]

/-- Witness for C5 at the concrete unknown code 12345 (CRITICAL range). -/
theorem C5_lookup_error_unknown_witness :
    pyMem ERROR_DATABASE 12345 = false ∧
    ((lookup_error 12345).severity =
        (if (12345 : ℤ) < 20000 then Severity.CRITICAL
         else if (12345 : ℤ) ≤ 59999 then Severity.WARNING
         else Severity.INFO) ∧
      (lookup_error 12345).description =
        "Warning/Error code " ++ toString (12345 : ℤ) ++
          " (not in built-in database).") :=
  ⟨by decide, C5_lookup_error_unknown 12345 (by decide)⟩

/-- The 100 smallest-timestep entries of the C7 scenario: 85 rows owned by
part 7, then 15 rows owned by part 9. -/
def c7Entries85 : List TimestepEntry :=
  List.replicate 85
      { element_type := "shell", element_number := 1, part_number := 7,
        timestep := 1 } ++
    List.replicate 15
      { element_type := "shell", element_number := 2, part_number := 9,
        timestep := 1 }

/-- The 100 entries of the C7 boundary scenario: 79 rows of part 7, 21
rows of part 9. -/
def c7Entries79 : List TimestepEntry :=
  List.replicate 79
      { element_type := "shell", element_number := 1, part_number := 7,
        timestep := 1 } ++
    List.replicate 21
      { element_type := "shell", element_number := 2, part_number := 9,
        timestep := 1 }

/-- C7: with 100 smallest-timestep entries of which 85 belong to part 7
(and no other part owns more), `analyze_timestep` emits exactly one
finding — an INFO finding naming part 7, whose ratio 85/100 = 0.85 exceeds
the 0.80 bound; with the largest owner holding only 79 of 100 entries no
domination finding is emitted, because 79/100 is not strictly greater than
0.80 (the boundary is strict). -/
theorem C7_timestep_domination :
    (analyze_timestep c7Entries85 []).findings =
      [{ severity := .INFO, category := "timestep",
         title := "Part 7 dominates timestep control" }] ∧
    (analyze_timestep c7Entries79 []).findings = [] ∧
    ((85 : Q) / 100 = 0.85 ∧ (85 : Q) / 100 > 0.8 ∧ ¬ ((79 : Q) / 100 > 0.8)) := by
  refine ⟨?_, ?_, by decide⟩ <;> decide

/-- C6: parsing a log with a single energy block `hourglass=60,
internal=100` yields exactly one snapshot with those values and the
defaulted `energy_ratio = 1`; `analyze_energy` on it emits exactly one
finding, CRITICAL with title "Hourglass energy critically high", and
`max_hourglass_ratio = 0.6`. -/
theorem C6_energy_single_block :
    (d3hspParse c6Lines).map (fun d =>
      (d.energy_snapshots.map (fun s => (s.hourglass, s.internal, s.energy_ratio)),
       (analyze_energy d.energy_snapshots).findings.map (fun f => (f.severity, f.title)),
       (analyze_energy d.energy_snapshots).max_hourglass_ratio)) =
    .ok ([((60 : Q), (100 : Q), (1 : Q))],
      [(Severity.CRITICAL, "Hourglass energy critically high")], (0.6 : Q)) := by
  decide

/-- C2 is REFUTED: the parser's error branch is reachable.  On a log whose
energy block captures `time per zone cycle.(nanosec)` with the literal
`1E999`, Python's `float` yields infinity and the unguarded `int(...)` in
`_build_energy_snapshot` raises `OverflowError`, so `parse` raises instead
of skipping the line. -/
theorem C2_parse_overflow_reachable :
    d3hspParse c2Lines = .error .overflowError := by
  decide

/-- C3 counterexample: a non-matching, non-blank line does NOT close the
smallest-timestep capture mode.  At step level, feeding such a line to a
BODY-phase state with capture open leaves the mode open; end to end, the
parser captures both rows of `c3Lines` although the spec's close rule
(`specCaptureCount`) would have captured only the first. -/
theorem C3_counterexample :
    pyStrip (pyRstrip " some unrelated line") ≠ "" ∧
    matchSmallestTsEntry (pyStrip (pyRstrip " some unrelated line")) = none ∧
    (d3Step c3OpenState " some unrelated line").map
      (fun s => s.in_smallest_ts) = .ok true ∧
    (d3hspParse c3Lines).map (fun d => d.smallest_timesteps.length) = .ok 2 ∧
    specCaptureCount c3Rows = 1 := by
  decide

/-- C3 (amended): in the BODY phase with smallest-timestep capture mode
open (and the line reaching the capture branch: no phase-exit banner, no
`***` marker, no pending warning context, no open energy block, no
`dt of cycle` text), every row matching the element/part/dt pattern is
appended as a `TimestepEntry`; a BLANK line closes the mode once at least
one entry has been captured; a non-matching NON-blank line is skipped with
the mode left open, and a blank line before any entry is also skipped. -/
theorem C3_smallest_ts_capture (st : D3State) (L : String)
    (hph : st.phase = .BODY) (hopen : st.in_smallest_ts = true)
    (heb : st.in_energy_block = false) (hwc : st.last_warning_code = none)
    (h1 : strHas (pyRstrip L) "T i m i n g   i n f o r m a t i o n" = false)
    (h2 : strHas (pyRstrip L) "N o r m a l   t e r m i n a t i o n" = false)
    (h3 : strHas (pyRstrip L) "E r r o r   t e r m i n a t i o n" = false)
    (h4 : strHas (pyRstrip L) "***" = false)
    (h5 : strHas (pyRstrip L) "dt of cycle" = false) :
    (∀ g : String × String × String × String,
        matchSmallestTsEntry (pyStrip (pyRstrip L)) = some g →
        d3Step st L = .ok { st with data := { st.data with smallest_timesteps :=
          st.data.smallest_timesteps ++
            [{ element_type := g.1, element_number := safeInt g.2.1,
               part_number := safeInt g.2.2.1,
               timestep := safeFloat g.2.2.2 }] } }) ∧
    (matchSmallestTsEntry (pyStrip (pyRstrip L)) = none →
      (pyStrip (pyRstrip L) = "" → st.data.smallest_timesteps ≠ [] →
        d3Step st L = .ok { st with in_smallest_ts := false }) ∧
      (pyStrip (pyRstrip L) ≠ "" → d3Step st L = .ok st) ∧
      (st.data.smallest_timesteps = [] → d3Step st L = .ok st)) := by
  have hstep : d3Step st L = stepBody st (pyRstrip L) := by
    simp only [d3Step, hph]
  rw [hstep]
  simp only [stepBody, stepBodyRest, h1, h2, h3, h4, h5, hwc, heb, hopen]
  simp only [Bool.false_eq_true, if_false, if_true]
  constructor
  · intro g hg
    obtain ⟨ty, en, pn, tsv⟩ := g
    rw [hg]
  · intro hng
    rw [hng]
    refine ⟨fun hb hne => ?_, fun hnb => ?_, fun hemp => ?_⟩
    · rw [if_pos ⟨hb, hne⟩]
    · rw [if_neg (fun hc => hnb hc.1)]
    · rw [if_neg (fun hc => hc.2 hemp)]

/-- Witness for the amended C3 capture behaviour: a matching row fed to a
BODY-phase state with capture open is appended. -/
theorem C3_smallest_ts_capture_witness :
    d3Step c3OpenState "    shell     124       7  1.23456E-04" =
      .ok { c3OpenState with data := { c3OpenState.data with smallest_timesteps :=
        c3OpenState.data.smallest_timesteps ++
          [{ element_type := "shell", element_number := safeInt "124",
             part_number := safeInt "7", timestep := safeFloat "1.23456E-04" }] } } :=
  (C3_smallest_ts_capture c3OpenState "    shell     124       7  1.23456E-04"
      rfl rfl rfl rfl (by decide) (by decide) (by decide) (by decide) (by decide)).1
    ("shell", "124", "7", "1.23456E-04") (by decide)

/-- Reading a key back after a `pySet`: the written key holds the new
value, other keys are untouched. -/
theorem pyGet_pySet {κ ν : Type} [DecidableEq κ] (d : List (κ × ν))
    (k k' : κ) (v : ν) :
    pyGet (pySet d k v) k' = if k' = k then some v else pyGet d k' := by
  induction d with
  | nil =>
    by_cases h : k' = k
    · subst h; simp [pySet, pyGet, List.find?]
    · have hk : ¬ k = k' := fun hh => h hh.symm
      simp [pySet, pyGet, List.find?, h, hk]
  | cons p rest ih =>
    by_cases hp : p.1 = k
    · by_cases h : k' = k
      · subst h; simp [pySet, pyGet, List.find?, hp]
      · have hk : ¬ k = k' := fun hh => h hh.symm
        have hp' : ¬ p.1 = k' := fun hh => h (hp.symm.trans hh).symm
        simp [pySet, pyGet, List.find?, hp, h, hk, hp']
    · by_cases h : p.1 = k'
      · have hk' : ¬ k' = k := fun hh => hp (h.trans hh)
        simp [pySet, pyGet, List.find?, hp, h, hk']
      · simp only [pySet, if_neg hp]
        simp only [pyGet, List.find?] at ih ⊢
        rw [decide_eq_false h]
        exact ih

/-- `pyGetD` version of `pyGet_pySet`. -/
theorem pyGetD_pySet {κ ν : Type} [DecidableEq κ] (d : List (κ × ν))
    (k k' : κ) (v : ν) (dflt : ν) :
    pyGetD (pySet d k v) k' dflt = if k' = k then v else pyGetD d k' dflt := by
  unfold pyGetD
  rw [pyGet_pySet]
  by_cases h : k' = k <;> simp [h]

/-- The severity buckets of `analyze_warnings` read back as filters: the
bucket of a severity holds exactly the observed (code, count) pairs whose
knowledge-base severity is that severity, in insertion order. -/
theorem codesBySeverity_get_aux (wc : List (ℤ × ℤ))
    (d : List (Severity × List (ℤ × ℤ))) (sev : Severity) :
    pyGetD (wc.foldl
      (fun d p =>
        let s := (lookup_error p.1).severity
        pySet d s (pyGetD d s [] ++ [p])) d) sev []
      = pyGetD d sev [] ++
        wc.filter (fun p => (lookup_error p.1).severity = sev) := by
  induction wc generalizing d with
  | nil => simp
  | cons p rest ih =>
    rw [List.foldl_cons, ih]
    by_cases h : (lookup_error p.1).severity = sev
    · rw [List.filter_cons_of_pos (by simp [h])]
      rw [pyGetD_pySet]
      simp [h]
    · rw [List.filter_cons_of_neg (by simp [h])]
      rw [pyGetD_pySet]
      have h' : ¬ sev = (lookup_error p.1).severity := fun hh => h hh.symm
      simp [h']

/-- Bucket lookup in `codesBySeverity` is a filter. -/
theorem codesBySeverity_get (wc : List (ℤ × ℤ)) (sev : Severity) :
    pyGetD (codesBySeverity wc) sev []
      = wc.filter (fun p => (lookup_error p.1).severity = sev) := by
  have h := codesBySeverity_get_aux wc [] sev
  simpa [codesBySeverity] using h

/-- C4 (amended): one `WarningEntry` per observed code (error codes first,
always CRITICAL); the findings are one per error code, then — if any
warning was observed — one per warning code whose knowledge-base severity
is CRITICAL, then ONE rolled-up finding summarizing exactly the codes of
knowledge-base severity WARNING (absent when there are none).  Codes of
severity INFO are covered by no finding: the rollup does NOT cover every
non-critical code, contrary to the claim. -/
theorem C4_warning_classifier (wc : List (ℤ × ℤ)) (wm : List (ℤ × String))
    (wi : List (ℤ × List ℤ)) (ec : List (ℤ × ℤ)) (em : List (ℤ × String)) :
    (analyze_warnings wc wm wi ec em).1.length = ec.length + wc.length ∧
    (∀ e ∈ (analyze_warnings wc wm wi ec em).1.take ec.length,
      e.severity = Severity.CRITICAL) ∧
    (analyze_warnings wc wm wi ec em).2 =
      (pySortedItems ec).map (fun p =>
        ({ severity := .CRITICAL, category := "error",
           title := "Error " ++ toString p.1 ++ ": " ++
             (lookup_error p.1).title } : Finding)) ++
      (if (wc.map (fun p => p.2)).sum > 0 then
        (wc.filter (fun p => (lookup_error p.1).severity = .CRITICAL)).map
          (fun p =>
            ({ severity := .CRITICAL, category := "warning",
               title := "Warning " ++ toString p.1 ++ ": " ++
                 (lookup_error p.1).title ++ " (" ++ toString p.2 ++ "x)" } :
              Finding)) ++
        (if wc.filter (fun p => (lookup_error p.1).severity = .WARNING) ≠ [] then
          [{ severity := .WARNING, category := "warning",
             title := toString
                 (((wc.filter (fun p => (lookup_error p.1).severity = .WARNING)).map
                   (fun p => p.2)).sum) ++
               " warnings detected (" ++
               toString (wc.filter
                 (fun p => (lookup_error p.1).severity = .WARNING)).length ++
               " codes)" }]
         else [])
       else []) := by
  have hec : (pySortedItems ec).length = ec.length :=
    (List.perm_insertionSort _ ec).length_eq
  have hwc : (pySortedByCountDesc wc).length = wc.length :=
    (List.perm_insertionSort _ wc).length_eq
  refine ⟨?_, ?_, ?_⟩
  · simp [analyze_warnings, hec, hwc]
  · intro e he
    rw [analyze_warnings] at he
    simp only at he
    rw [List.take_append_of_le_length (by simp [hec]),
      List.take_of_length_le (by simp [hec])] at he
    simp only [List.mem_map] at he
    obtain ⟨p, -, hp⟩ := he
    rw [← hp]
  · rw [analyze_warnings]
    simp only [codesBySeverity_get]

/-- Folding the accumulate-into-dict step over one rank's pairs adds, at
every key, the sum of that rank's values at the key. -/
theorem pyGetD_fold_add (l : List (ℤ × ℤ)) (a : List (ℤ × ℤ)) (k : ℤ) :
    pyGetD (l.foldl (fun a p => pySet a p.1 (pyGetD a p.1 0 + p.2)) a) k 0 =
      pyGetD a k 0 + ((l.filter (fun p => p.1 = k)).map (fun p => p.2)).sum := by
  induction l generalizing a with
  | nil => simp
  | cons p rest ih =>
    rw [List.foldl_cons, ih]
    by_cases h : p.1 = k
    · subst h
      rw [List.filter_cons_of_pos (by simp)]
      rw [pyGetD_pySet]
      simp [add_assoc]
    · rw [List.filter_cons_of_neg (by simp [h])]
      rw [pyGetD_pySet]
      have h' : ¬ k = p.1 := fun hh => h hh.symm
      simp [h']

/-- Under unique keys (a Python dict invariant), the sum of an association
list's values at a key is its dict value there (0 when absent). -/
theorem sum_filter_eq_pyGetD (l : List (ℤ × ℤ)) (k : ℤ)
    (h : (pyKeys l).Nodup) :
    ((l.filter (fun p => p.1 = k)).map (fun p => p.2)).sum = pyGetD l k 0 := by
  induction l with
  | nil => simp [pyGetD, pyGet]
  | cons p rest ih =>
    have h' : p.1 ∉ pyKeys rest ∧ (pyKeys rest).Nodup := by
      simpa [pyKeys] using h
    by_cases hk : p.1 = k
    · subst hk
      rw [List.filter_cons_of_pos (by simp)]
      have hrest : rest.filter (fun q => q.1 = p.1) = [] := by
        rw [List.filter_eq_nil]
        intro q hq
        simp only [decide_eq_true_eq]
        intro hqp
        exact h'.1 (by simpa [pyKeys, hqp.symm] using List.mem_map_of_mem (fun r => r.1) hq)
      simp [hrest, pyGetD, pyGet, List.find?]
    · rw [List.filter_cons_of_neg (by simp [hk])]
      rw [ih h'.2]
      simp [pyGetD, pyGet, List.find?, hk]

/-- Generalized merge: folding the per-rank accumulation over a rank list
adds, at every interface, the sum of the ranks' dict values there. -/
theorem mergeInitialPenetrations_aux (mes_data : List MessagData)
    (a : List (ℤ × ℤ)) (intf : ℤ)
    (h : ∀ md ∈ mes_data, (pyKeys md.initial_penetrations).Nodup) :
    pyGetD (mes_data.foldl
      (fun acc md => md.initial_penetrations.foldl
        (fun a p => pySet a p.1 (pyGetD a p.1 0 + p.2)) acc) a) intf 0 =
      pyGetD a intf 0 +
        (mes_data.map (fun md => pyGetD md.initial_penetrations intf 0)).sum := by
  induction mes_data generalizing a with
  | nil => simp
  | cons md rest ih =>
    rw [List.foldl_cons, ih _ (fun m hm => h m (List.mem_cons_of_mem _ hm))]
    rw [pyGetD_fold_add,
      sum_filter_eq_pyGetD _ _ (h md (List.mem_cons_self _ _))]
    simp [add_assoc]

/-- C8: for every ordered list of per-rank message summaries whose
initial-penetration maps have unique interface keys (a Python dict
invariant), the merged initial-penetration count at each interface is the
sum over the ranks of that rank's count there. -/
theorem C8_merge_penetration_sum (mes_data : List MessagData) (intf : ℤ)
    (h : ∀ md ∈ mes_data, (pyKeys md.initial_penetrations).Nodup) :
    pyGetD (mergeInitialPenetrations mes_data) intf 0 =
      (mes_data.map (fun md => pyGetD md.initial_penetrations intf 0)).sum := by
  have := mergeInitialPenetrations_aux mes_data [] intf h
  simpa [mergeInitialPenetrations, pyGetD, pyGet] using this

/-- Witness for C8: ranks reporting interface 3 → 5 and interface 3 → 7
merge to interface 3 → 12. -/
theorem C8_merge_penetration_sum_witness :
    pyGetD (mergeInitialPenetrations c8Ranks) 3 0 = 12 :=
  (C8_merge_penetration_sum c8Ranks 3 (by decide)).trans (by decide)

/-- C9: the assembled report is a pure function of the input file
contents — the embedding of `Analyzer.run` consults nothing besides its
`AnalyzerInputs` (no clock, randomness or other hidden state appears in
the modelled pipeline), so two runs on equal inputs give identical
reports. -/
theorem C9_pipeline_deterministic (i1 i2 : AnalyzerInputs) (h : i1 = i2) :
    analyzerRun i1 = analyzerRun i2 := by
  rw [h]

/-- Witness for C9 at a concrete run input. -/
theorem C9_pipeline_deterministic_witness :
    analyzerRun c9Input = analyzerRun c9Input :=
  C9_pipeline_deterministic c9Input c9Input rfl

/-! ### Lemmas for the energy-block count invariant -/

/-- `parseHeaderLine` touches only the header record. -/
theorem parseHeaderLine_snaps (line : String) (d : D3hspData) :
    (parseHeaderLine line d).energy_snapshots = d.energy_snapshots := by
  unfold parseHeaderLine
  repeat' split
  all_goals rfl

/-- `parseModelSize` touches only the model-size record. -/
theorem parseModelSize_snaps (line : String) (d : D3hspData) :
    (parseModelSize line d).energy_snapshots = d.energy_snapshots := by
  unfold parseModelSize
  repeat' split
  all_goals rfl

/-- `parseComputationOptions` touches only scalar option fields. -/
theorem parseComputationOptions_snaps (line : String) (d : D3hspData) :
    (parseComputationOptions line d).energy_snapshots = d.energy_snapshots := by
  unfold parseComputationOptions
  repeat' split
  all_goals rfl

/-- `massFieldApply` touches only the mass-property list. -/
theorem massFieldApply_snaps (s : String) (d : D3hspData) :
    (massFieldApply s d).energy_snapshots = d.energy_snapshots := by
  unfold massFieldApply
  repeat' split
  all_goals rfl

/-- The fields the abstraction reads are changed by the HEADER step only
as: phase advanced on the keyword-counts banner, snapshots untouched. -/
theorem stepHeader_fields (st : D3State) (s : String) :
    (stepHeader st s).phase =
      (if strHas s "L I S T   O F   K E Y W O R D   C O U N T S" then
        D3Phase.KEYWORD_COUNTS else st.phase) ∧
    (stepHeader st s).last_warning_code = st.last_warning_code ∧
    (stepHeader st s).lines_after_warning = st.lines_after_warning ∧
    (stepHeader st s).in_energy_block = st.in_energy_block ∧
    (stepHeader st s).current_energy = st.current_energy ∧
    (stepHeader st s).current_cycle_info = st.current_cycle_info ∧
    (stepHeader st s).data.energy_snapshots = st.data.energy_snapshots := by
  refine ⟨?_, ?_, ?_, ?_, ?_, ?_, ?_⟩ <;>
    (unfold stepHeader; repeat' split) <;>
    simp_all [parseHeaderLine_snaps, parseModelSize_snaps,
      parseComputationOptions_snaps, massFieldApply_snaps]

/-- The fields the abstraction reads are changed by the KEYWORD_COUNTS
step only as: phase advanced on the control-information banner. -/
theorem stepKeywordCounts_fields (st : D3State) (s : String) :
    (stepKeywordCounts st s).phase =
      (if strHas s "c o n t r o l   i n f o r m a t i o n" then
        D3Phase.CONTROL_INFO else st.phase) ∧
    (stepKeywordCounts st s).last_warning_code = st.last_warning_code ∧
    (stepKeywordCounts st s).lines_after_warning = st.lines_after_warning ∧
    (stepKeywordCounts st s).in_energy_block = st.in_energy_block ∧
    (stepKeywordCounts st s).current_energy = st.current_energy ∧
    (stepKeywordCounts st s).current_cycle_info = st.current_cycle_info ∧
    (stepKeywordCounts st s).data.energy_snapshots = st.data.energy_snapshots := by
  refine ⟨?_, ?_, ?_, ?_, ?_, ?_, ?_⟩
  all_goals unfold stepKeywordCounts
  · split
    · rfl
    · repeat' split
      all_goals rfl
  · split
    · rfl
    · repeat' split
      all_goals rfl
  · split
    · rfl
    · repeat' split
      all_goals rfl
  · split
    · rfl
    · repeat' split
      all_goals rfl
  · split
    · rfl
    · repeat' split
      all_goals rfl
  · split
    · rfl
    · repeat' split
      all_goals rfl
  · split
    · rfl
    · repeat' split
      all_goals (try rfl)
      all_goals (simp only []; split_ifs <;> rfl)

/-- The fields the abstraction reads are changed by the CONTROL_INFO step
only as: phase advanced on the part-definitions banner. -/
theorem stepControlInfo_fields (st : D3State) (s : String) :
    (stepControlInfo st s).phase =
      (if strHas s "p a r t   d e f i n i t i o n s" then
        D3Phase.PART_DEFS else st.phase) ∧
    (stepControlInfo st s).last_warning_code = st.last_warning_code ∧
    (stepControlInfo st s).lines_after_warning = st.lines_after_warning ∧
    (stepControlInfo st s).in_energy_block = st.in_energy_block ∧
    (stepControlInfo st s).current_energy = st.current_energy ∧
    (stepControlInfo st s).current_cycle_info = st.current_cycle_info ∧
    (stepControlInfo st s).data.energy_snapshots = st.data.energy_snapshots := by
  have hsn : ∀ d : D3hspData,
      (match searchMppProcs s with
       | some v => { d with header := { d.header with num_procs := safeInt v } }
       | none => d).energy_snapshots = d.energy_snapshots := by
    intro d
    split
    all_goals rfl
  refine ⟨?_, ?_, ?_, ?_, ?_, ?_, ?_⟩
  all_goals unfold stepControlInfo
  · split
    all_goals rfl
  · split
    all_goals rfl
  · split
    all_goals rfl
  · split
    all_goals rfl
  · split
    all_goals rfl
  · split
    all_goals rfl
  · split
    · rfl
    · simp only [hsn]
      rw [parseComputationOptions_snaps, parseModelSize_snaps]

/-- The fields the abstraction reads are changed by the PART_DEFS step
only as: phase advanced on the contact-interfaces banner. -/
theorem stepPartDefs_fields (st : D3State) (s : String) :
    (stepPartDefs st s).phase =
      (if strHas s "c o n t a c t   i n t e r f a c e s" then
        D3Phase.CONTACTS else st.phase) ∧
    (stepPartDefs st s).last_warning_code = st.last_warning_code ∧
    (stepPartDefs st s).lines_after_warning = st.lines_after_warning ∧
    (stepPartDefs st s).in_energy_block = st.in_energy_block ∧
    (stepPartDefs st s).current_energy = st.current_energy ∧
    (stepPartDefs st s).current_cycle_info = st.current_cycle_info ∧
    (stepPartDefs st s).data.energy_snapshots = st.data.energy_snapshots := by
  refine ⟨?_, ?_, ?_, ?_, ?_, ?_, ?_⟩ <;>
    (unfold stepPartDefs; repeat' split) <;>
    simp_all [parseHeaderLine_snaps, parseModelSize_snaps,
      parseComputationOptions_snaps, massFieldApply_snaps]

/-- The contact-header/type capture touches no abstraction field. -/
theorem contactHeaderType_fields (st : D3State) (s : String) :
    (contactHeaderType st s).phase = st.phase ∧
    (contactHeaderType st s).last_warning_code = st.last_warning_code ∧
    (contactHeaderType st s).lines_after_warning = st.lines_after_warning ∧
    (contactHeaderType st s).in_energy_block = st.in_energy_block ∧
    (contactHeaderType st s).current_energy = st.current_energy ∧
    (contactHeaderType st s).current_cycle_info = st.current_cycle_info ∧
    (contactHeaderType st s).data.energy_snapshots = st.data.energy_snapshots := by
  refine ⟨?_, ?_, ?_, ?_, ?_, ?_, ?_⟩ <;>
    (unfold contactHeaderType; repeat' split) <;>
    simp_all [parseHeaderLine_snaps, parseModelSize_snaps,
      parseComputationOptions_snaps, massFieldApply_snaps]

/-- The TAIL terminal branches touch no abstraction field. -/
theorem stepTailEnd_fields (st : D3State) (s : String) :
    (stepTailEnd st s).phase = st.phase ∧
    (stepTailEnd st s).last_warning_code = st.last_warning_code ∧
    (stepTailEnd st s).lines_after_warning = st.lines_after_warning ∧
    (stepTailEnd st s).in_energy_block = st.in_energy_block ∧
    (stepTailEnd st s).current_energy = st.current_energy ∧
    (stepTailEnd st s).current_cycle_info = st.current_cycle_info ∧
    (stepTailEnd st s).data.energy_snapshots = st.data.energy_snapshots := by
  refine ⟨?_, ?_, ?_, ?_, ?_, ?_, ?_⟩ <;>
    (unfold stepTailEnd; repeat' split) <;> rfl

/-- Projection form of the per-field lemmas: the abstraction of a
field-preserving step result. -/
theorem ebcProj_eq_of_fields (st st' : D3State) (ph : D3Phase)
    (h : st'.phase = ph ∧
      st'.last_warning_code = st.last_warning_code ∧
      st'.lines_after_warning = st.lines_after_warning ∧
      st'.in_energy_block = st.in_energy_block ∧
      st'.current_energy = st.current_energy ∧
      st'.current_cycle_info = st.current_cycle_info ∧
      st'.data.energy_snapshots = st.data.energy_snapshots) :
    ebcProj st' = { ebcProj st with phase := ph } := by
  obtain ⟨h1, h2, h3, h4, h5, h6, h7⟩ := h
  unfold ebcProj
  rw [h1, h2, h3, h4, h5, h6, h7]

/-- The abstraction ignores updates of the non-projected state fields
when the data update preserves the snapshot list. -/
theorem ebcProj_update (st : D3State) (d : D3hspData) (pb : List String)
    (ics ists itm ict : Bool)
    (h : d.energy_snapshots = st.data.energy_snapshots) :
    ebcProj { st with data := d, part_block := pb, in_contact_summary := ics,
                      in_smallest_ts := ists, in_timing := itm,
                      in_cpu_timing := ict } =
      ebcProj st :=
  ebcProj_eq_of_fields st _ st.phase ⟨rfl, rfl, rfl, rfl, rfl, rfl, h⟩

/-- The TAIL terminal branches do not move the abstraction. -/
theorem ebcProj_stepTailEnd (st : D3State) (s : String) :
    ebcProj (stepTailEnd st s) = ebcProj st :=
  ebcProj_eq_of_fields st _ st.phase
    ⟨(stepTailEnd_fields st s).1, (stepTailEnd_fields st s).2.1,
      (stepTailEnd_fields st s).2.2.1, (stepTailEnd_fields st s).2.2.2.1,
      (stepTailEnd_fields st s).2.2.2.2.1,
      (stepTailEnd_fields st s).2.2.2.2.2.1,
      (stepTailEnd_fields st s).2.2.2.2.2.2⟩

/-- The TAIL termination/mass/decomp branches do not move the
abstraction. -/
theorem ebcProj_stepTailMass (st : D3State) (s : String) :
    ebcProj (stepTailMass st s) = ebcProj st := by
  unfold stepTailMass
  by_cases h1 : strHas s "N o r m a l" = true ∧ strHas s "t e r m i n a t i o n" = true
  · rw [if_pos h1]; exact ebcProj_update st _ _ _ _ _ _ rfl
  rw [if_neg h1]
  by_cases h2 : strHas s "E r r o r" = true ∧ strHas s "t e r m i n a t i o n" = true
  · rw [if_pos h2]; exact ebcProj_update st _ _ _ _ _ _ rfl
  rw [if_neg h2]
  by_cases h3 : strHas s "m a s s" = true ∧ strHas s "p r o p e r t i e s" = true
  · rw [if_pos h3]; split <;> exact ebcProj_update st _ _ _ _ _ _ rfl
  rw [if_neg h3]
  by_cases h4 : st.data.mass_properties ≠ [] ∧
      (strHas s "mass center" = true ∨ strHas s "total mass" = true ∨
        strHas s "i11" = true ∨ strHas s "i22" = true ∨ strHas s "i33" = true)
  · rw [if_pos h4]
    exact ebcProj_update st _ _ _ _ _ _ (massFieldApply_snaps s st.data)
  rw [if_neg h4]
  by_cases h5 : strHas s "Minumum:" = true
  · rw [if_pos h5]; split <;> exact ebcProj_update st _ _ _ _ _ _ rfl
  rw [if_neg h5]
  by_cases h6 : strHas s "Maximum:" = true
  · rw [if_pos h6]; split <;> exact ebcProj_update st _ _ _ _ _ _ rfl
  rw [if_neg h6]
  by_cases h7 : strHas s "Standard Deviation:" = true
  · rw [if_pos h7]; split <;> exact ebcProj_update st _ _ _ _ _ _ rfl
  rw [if_neg h7]
  by_cases h8 : strHas s "Memory required for decomposition" = true
  · rw [if_pos h8]; split <;> exact ebcProj_update st _ _ _ _ _ _ rfl
  rw [if_neg h8]
  by_cases h9 : strHas s "Additional dynamic memory" = true
  · rw [if_pos h9]; split <;> exact ebcProj_update st _ _ _ _ _ _ rfl
  rw [if_neg h9]
  exact ebcProj_stepTailEnd st s

/-- The TAIL step does not move the abstraction. -/
theorem ebcProj_stepTail (st : D3State) (s : String) :
    ebcProj (stepTail st s) = ebcProj st := by
  unfold stepTail
  by_cases h1 : st.in_timing = true
  · rw [if_pos h1]
    by_cases h1a : strHas s "T o t a l s" = true ∧ ¬ (strHas s "C P U" = true)
    · rw [if_pos h1a]; exact ebcProj_update st _ _ _ _ _ _ rfl
    · rw [if_neg h1a]
      split
      · exact ebcProj_update st _ _ _ _ _ _ rfl
      · split
        · exact ebcProj_update st _ _ _ _ _ _ rfl
        · rfl
  rw [if_neg h1]
  by_cases h2 : st.in_cpu_timing = true
  · rw [if_pos h2]
    by_cases h2a : strHas s "T o t a l s" = true
    · rw [if_pos h2a]; exact ebcProj_update st _ _ _ _ _ _ rfl
    · rw [if_neg h2a]
      split
      · exact ebcProj_update st _ _ _ _ _ _ rfl
      · rfl
  rw [if_neg h2]
  by_cases h3 : strHas s "C P U   T i m i n g" = true
  · rw [if_pos h3]; exact ebcProj_update st _ _ _ _ _ _ rfl
  rw [if_neg h3]
  by_cases h4 : strHas s "T i m i n g   i n f o r m a t i o n" = true
  · rw [if_pos h4]; exact ebcProj_update st _ _ _ _ _ _ rfl
  rw [if_neg h4]
  exact ebcProj_stepTailMass st s

/-- The decomp/mass branches at the bottom of the BODY handling do not
move the abstraction. -/
theorem ebcProj_stepBodyDecomp (st : D3State) (s : String) :
    ebcProj (stepBodyDecomp st s) = ebcProj st := by
  unfold stepBodyDecomp
  by_cases h1 : strHas s "Minumum:" = true
  · rw [if_pos h1]; split <;> exact ebcProj_update st _ _ _ _ _ _ rfl
  rw [if_neg h1]
  by_cases h2 : strHas s "Maximum:" = true
  · rw [if_pos h2]; split <;> exact ebcProj_update st _ _ _ _ _ _ rfl
  rw [if_neg h2]
  by_cases h3 : strHas s "Standard Deviation:" = true
  · rw [if_pos h3]; split <;> exact ebcProj_update st _ _ _ _ _ _ rfl
  rw [if_neg h3]
  by_cases h4 : strHas s "Memory required for decomposition" = true
  · rw [if_pos h4]; split <;> exact ebcProj_update st _ _ _ _ _ _ rfl
  rw [if_neg h4]
  by_cases h5 : strHas s "Additional dynamic memory" = true
  · rw [if_pos h5]; split <;> exact ebcProj_update st _ _ _ _ _ _ rfl
  rw [if_neg h5]
  by_cases h6 : strHas s "m a s s" = true ∧ strHas s "p r o p e r t i e s" = true
  · rw [if_pos h6]; split <;> exact ebcProj_update st _ _ _ _ _ _ rfl
  rw [if_neg h6]
  by_cases h7 : st.data.mass_properties ≠ []
  · rw [if_pos h7]
    exact ebcProj_update st _ _ _ _ _ _ (massFieldApply_snaps s st.data)
  · rw [if_neg h7]

/-- The smallest-timestep capture and the branches below it do not move
the abstraction. -/
theorem ebcProj_stepBodyRest (st : D3State) (s : String) :
    ebcProj (stepBodyRest st s) = ebcProj st := by
  unfold stepBodyRest
  by_cases h1 : st.in_smallest_ts = true
  · rw [if_pos h1]
    split
    · exact ebcProj_update st _ _ _ _ _ _ rfl
    · split
      · exact ebcProj_update st _ _ _ _ _ _ rfl
      · rfl
  rw [if_neg h1]
  by_cases h2 : strHas s "100 smallest timesteps" = true
  · rw [if_pos h2]; exact ebcProj_update st _ _ _ _ _ _ rfl
  rw [if_neg h2]
  exact ebcProj_stepBodyDecomp st s

/-- A `pySet` result is never the empty dict. -/
theorem pySet_isEmpty {κ ν : Type} [DecidableEq κ] (d : List (κ × ν))
    (k : κ) (v : ν) : (pySet d k v).isEmpty = false := by
  cases d with
  | nil => rfl
  | cons p rest =>
    unfold pySet
    split <;> rfl

/-- A successfully built energy snapshot is `some` exactly when the cycle
info was set and at least one energy field was captured. -/
theorem buildEnergySnapshot_shape (ci : Option CycleInfo)
    (en : List (String × Q)) (osnap : Option EnergySnapshot)
    (h : buildEnergySnapshot ci en = .ok osnap) :
    osnap.isSome = (ci.isSome && !en.isEmpty) := by
  cases ci with
  | none =>
    unfold buildEnergySnapshot at h
    simp only [] at h
    injection h with h
    subst h
    rfl
  | some c =>
    by_cases he : en = []
    · subst he
      unfold buildEnergySnapshot at h
      simp only [] at h
      rw [if_true] at h
      injection h with h
      subst h
      rfl
    · unfold buildEnergySnapshot at h
      simp only [] at h
      rw [if_neg he] at h
      cases hpz : pyIntOfFloat (pyGetD en "time per zone cycle.(nanosec)" 0) with
      | error e => rw [hpz] at h; cases h
      | ok z =>
        rw [hpz] at h
        injection h with h
        subst h
        cases en with
        | nil => exact absurd rfl he
        | cons a l => rfl

/-- The abstract BODY transition simulates the concrete one: whenever the
BODY handler succeeds, the abstraction of the result state is obtained by
the abstract BODY step. -/
theorem ebcBody_sim (st : D3State) (s : String) (st' : D3State)
    (h : stepBody st s = .ok st') :
    ebcBody (ebcProj st) s = ebcProj st' := by
  unfold stepBody at h
  unfold ebcBody
  by_cases h1 : strHas s "T i m i n g   i n f o r m a t i o n" = true
  · rw [if_pos h1] at h ⊢
    injection h with h
    subst h
    rfl
  rw [if_neg h1] at h ⊢
  by_cases h2 : strHas s "N o r m a l   t e r m i n a t i o n" = true
  · rw [if_pos h2] at h ⊢
    injection h with h
    subst h
    rfl
  rw [if_neg h2] at h ⊢
  by_cases h3 : strHas s "E r r o r   t e r m i n a t i o n" = true
  · rw [if_pos h3] at h ⊢
    injection h with h
    subst h
    rfl
  rw [if_neg h3] at h ⊢
  by_cases h4 : strHas s "***" = true
  · rw [if_pos h4] at h ⊢
    cases hw : matchWarning s with
    | some cstr =>
      rw [hw] at h
      injection h with h
      subst h
      rfl
    | none =>
      rw [hw] at h
      cases he : matchErrorRE s with
      | some cstr =>
        rw [he] at h
        injection h with h
        subst h
        rfl
      | none =>
        rw [he] at h
        by_cases ht : strHas s "termination time reached" = true
        · rw [if_pos ht] at h
          injection h with h
          subst h
          rfl
        · rw [if_neg ht] at h
          injection h with h
          subst h
          rfl
  rw [if_neg h4] at h ⊢
  cases hl : st.last_warning_code with
  | some code =>
    rw [hl] at h
    rw [show (ebcProj st).warn = some st.lines_after_warning by
      unfold ebcProj; rw [hl]]
    simp only [] at h ⊢
    by_cases hn : st.lines_after_warning + 1 ≤ 5
    · rw [if_pos hn] at h ⊢
      injection h with h
      subst h
      rfl
    · rw [if_neg hn] at h ⊢
      injection h with h
      subst h
      rfl
  | none =>
    rw [hl] at h
    rw [show (ebcProj st).warn = none by unfold ebcProj; rw [hl]]
    simp only [] at h ⊢
    rw [show (ebcProj st).inEnergy = st.in_energy_block from rfl]
    by_cases hb : st.in_energy_block = true
    · rw [if_pos hb] at h ⊢
      cases hf : matchEnergyField s with
      | some kv =>
        obtain ⟨k, v⟩ := kv
        rw [hf] at h
        injection h with h
        subst h
        unfold ebcProj
        rw [hl, pySet_isEmpty]
        rfl
      | none =>
        rw [hf] at h
        by_cases hbl : pyStrip s = ""
        · rw [if_pos hbl] at h ⊢
          cases hbs : buildEnergySnapshot st.current_cycle_info
              st.current_energy with
          | error e => rw [hbs] at h; cases h
          | ok osnap =>
            rw [hbs] at h
            injection h with h
            subst h
            have hsh := buildEnergySnapshot_shape _ _ _ hbs
            cases osnap with
            | some snap =>
              simp only [Option.isSome] at hsh
              rw [if_pos (by
                constructor
                · show (ebcProj st).hasCycle = true
                  unfold ebcProj
                  exact (Bool.and_eq_true _ _ |>.mp hsh.symm).1
                · show (ebcProj st).energyNE = true
                  unfold ebcProj
                  exact (Bool.and_eq_true _ _ |>.mp hsh.symm).2)]
              unfold ebcProj
              rw [hl]
              simp [List.length_append]
            | none =>
              simp only [Option.isSome] at hsh
              rw [if_neg (by
                intro hc
                obtain ⟨hc1, hc2⟩ := hc
                have htrue : (st.current_cycle_info.isSome &&
                    !st.current_energy.isEmpty) = true := by
                  rw [show st.current_cycle_info.isSome =
                        (ebcProj st).hasCycle from rfl,
                    show (!st.current_energy.isEmpty) =
                        (ebcProj st).energyNE from rfl,
                    hc1, hc2]
                  rfl
                exact Bool.noConfusion (hsh.trans htrue))]
              unfold ebcProj
              rw [hl]
              simp
        · rw [if_neg hbl] at h ⊢
          injection h with h
          subst h
          rfl
    · rw [if_neg hb] at h ⊢
      by_cases hdt : strHas s "dt of cycle" = true
      · rw [if_pos hdt] at h ⊢
        cases hdc : searchDtCycle s with
        | some g =>
          obtain ⟨c, et, en, pn⟩ := g
          rw [hdc] at h
          injection h with h
          subst h
          rfl
        | none =>
          rw [hdc] at h
          injection h with h
          subst h
          rfl
      · rw [if_neg hdt] at h ⊢
        injection h with h
        subst h
        exact (ebcProj_stepBodyRest st s).symm

/-- The contact-header/type capture does not move the abstraction. -/
theorem ebcProj_contactHeaderType (st : D3State) (s : String) :
    ebcProj (contactHeaderType st s) = ebcProj st :=
  ebcProj_eq_of_fields st _ st.phase
    ⟨(contactHeaderType_fields st s).1, (contactHeaderType_fields st s).2.1,
      (contactHeaderType_fields st s).2.2.1,
      (contactHeaderType_fields st s).2.2.2.1,
      (contactHeaderType_fields st s).2.2.2.2.1,
      (contactHeaderType_fields st s).2.2.2.2.2.1,
      (contactHeaderType_fields st s).2.2.2.2.2.2⟩

/-- The abstract step simulates one parser step: when `d3Step` succeeds,
the abstraction of the result is the abstract step of the abstraction. -/
theorem ebcStep_sim (st st' : D3State) (L : String)
    (h : d3Step st L = .ok st') :
    ebcStep (ebcProj st) L = ebcProj st' := by
  unfold d3Step at h
  unfold ebcStep
  rw [show (ebcProj st).phase = st.phase from rfl]
  cases hph : st.phase with
  | HEADER =>
    rw [hph] at h
    simp only [] at h
    injection h with h
    subst h
    rw [if_pos rfl]
    have hf := stepHeader_fields st (pyRstrip L)
    rw [ebcProj_eq_of_fields st (stepHeader st (pyRstrip L)) _
      ⟨hf.1, hf.2.1, hf.2.2.1, hf.2.2.2.1, hf.2.2.2.2.1, hf.2.2.2.2.2.1,
        hf.2.2.2.2.2.2⟩]
    by_cases hc : strHas (pyRstrip L)
        "L I S T   O F   K E Y W O R D   C O U N T S" = true
    · rw [if_pos hc, if_pos hc]
    · rw [if_neg hc, if_neg hc]
      rfl
  | KEYWORD_COUNTS =>
    rw [hph] at h
    simp only [] at h
    injection h with h
    subst h
    rw [if_neg (by decide), if_pos rfl]
    have hf := stepKeywordCounts_fields st (pyRstrip L)
    rw [ebcProj_eq_of_fields st (stepKeywordCounts st (pyRstrip L)) _
      ⟨hf.1, hf.2.1, hf.2.2.1, hf.2.2.2.1, hf.2.2.2.2.1, hf.2.2.2.2.2.1,
        hf.2.2.2.2.2.2⟩]
    by_cases hc : strHas (pyRstrip L)
        "c o n t r o l   i n f o r m a t i o n" = true
    · rw [if_pos hc, if_pos hc]
    · rw [if_neg hc, if_neg hc]
      rfl
  | CONTROL_INFO =>
    rw [hph] at h
    simp only [] at h
    injection h with h
    subst h
    rw [if_neg (by decide), if_neg (by decide), if_pos rfl]
    have hf := stepControlInfo_fields st (pyRstrip L)
    rw [ebcProj_eq_of_fields st (stepControlInfo st (pyRstrip L)) _
      ⟨hf.1, hf.2.1, hf.2.2.1, hf.2.2.2.1, hf.2.2.2.2.1, hf.2.2.2.2.2.1,
        hf.2.2.2.2.2.2⟩]
    by_cases hc : strHas (pyRstrip L) "p a r t   d e f i n i t i o n s" = true
    · rw [if_pos hc, if_pos hc]
    · rw [if_neg hc, if_neg hc]
      rfl
  | PART_DEFS =>
    rw [hph] at h
    simp only [] at h
    injection h with h
    subst h
    rw [if_neg (by decide), if_neg (by decide), if_neg (by decide),
      if_pos rfl]
    have hf := stepPartDefs_fields st (pyRstrip L)
    rw [ebcProj_eq_of_fields st (stepPartDefs st (pyRstrip L)) _
      ⟨hf.1, hf.2.1, hf.2.2.1, hf.2.2.2.1, hf.2.2.2.2.1, hf.2.2.2.2.2.1,
        hf.2.2.2.2.2.2⟩]
    by_cases hc : strHas (pyRstrip L)
        "c o n t a c t   i n t e r f a c e s" = true
    · rw [if_pos hc, if_pos hc]
    · rw [if_neg hc, if_neg hc]
      rfl
  | CONTACTS =>
    rw [hph] at h
    simp only [] at h
    rw [if_neg (by decide), if_neg (by decide), if_neg (by decide),
      if_neg (by decide), if_pos rfl]
    unfold stepContacts at h
    by_cases hcc : strHas (pyRstrip L) "***" = true ∧
        (strHas (pyRstrip L) "Warning" = true ∨
          strHas (pyRstrip L) "Error" = true)
    · rw [if_pos hcc] at h
      rw [if_pos hcc]
      exact ebcBody_sim { st with phase := .BODY } (pyRstrip L) st' h
    · rw [if_neg hcc] at h
      rw [if_neg hcc]
      by_cases hcs : strHas (pyRstrip L) "Contact summary" = true
      · rw [if_pos hcs] at h
        injection h with h
        subst h
        rfl
      · rw [if_neg hcs] at h
        by_cases hic : st.in_contact_summary = true
        · rw [if_pos hic] at h
          by_cases hord : strHas (pyRstrip L) "Order #" = true
          · rw [if_pos hord] at h
            injection h with h
            subst h
            rfl
          · rw [if_neg hord] at h
            cases hmz : matchContactSummaryEntry (pyRstrip L) with
            | some g =>
              obtain ⟨g1, g2, g3, g4⟩ := g
              rw [hmz] at h
              injection h with h
              subst h
              rfl
            | none =>
              rw [hmz] at h
              by_cases hps : matchPartSeparator (pyRstrip L) = true
              · rw [if_pos hps] at h
                injection h with h
                subst h
                rfl
              · rw [if_neg hps] at h
                injection h with h
                subst h
                exact (ebcProj_contactHeaderType st (pyRstrip L)).symm
        · rw [if_neg hic] at h
          injection h with h
          subst h
          exact (ebcProj_contactHeaderType st (pyRstrip L)).symm
  | BODY =>
    rw [hph] at h
    simp only [] at h
    rw [if_neg (by decide), if_neg (by decide), if_neg (by decide),
      if_neg (by decide), if_neg (by decide), if_pos rfl]
    exact ebcBody_sim st (pyRstrip L) st' h
  | TAIL =>
    rw [hph] at h
    simp only [] at h
    injection h with h
    subst h
    rw [if_neg (by decide), if_neg (by decide), if_neg (by decide),
      if_neg (by decide), if_neg (by decide), if_neg (by decide)]
    exact (ebcProj_stepTail st (pyRstrip L)).symm

/-- The simulation extends to the whole line fold. -/
theorem d3_fold_sim (lines : List String) (st0 st : D3State)
    (h : lines.foldlM d3Step st0 = .ok st) :
    lines.foldl ebcStep (ebcProj st0) = ebcProj st := by
  induction lines generalizing st0 with
  | nil =>
    rw [List.foldlM_nil] at h
    injection h with h
    subst h
    rfl
  | cons l ls ih =>
    rw [List.foldlM_cons] at h
    cases hd : d3Step st0 l with
    | error e =>
      rw [hd] at h
      exact Except.noConfusion
        (show Except.error e = Except.ok st from h)
    | ok s1 =>
      rw [hd] at h
      rw [List.foldl_cons, ebcStep_sim st0 s1 l hd]
      exact ih s1 (show List.foldlM d3Step s1 ls = Except.ok st from h)

/-- C10: whenever the parse succeeds, the number of emitted energy
snapshots equals the number of blank-line-closed, non-empty energy blocks
of the BODY section, as counted by the abstract machine
(`countEnergyBlocks`); in particular a block still open when the BODY
phase exits or the file ends contributes no snapshot. -/
theorem C10_energy_block_count (lines : List String) (d : D3hspData)
    (h : d3hspParse lines = .ok d) :
    d.energy_snapshots.length = countEnergyBlocks lines := by
  unfold d3hspParse at h
  cases hf : lines.foldlM d3Step ({} : D3State) with
  | ok stf =>
    rw [hf] at h
    injection h with h
    subst h
    unfold countEnergyBlocks
    rw [show ({} : EBCState) = ebcProj ({} : D3State) from rfl]
    rw [d3_fold_sim lines {} stf hf]
    rfl
  | error e =>
    rw [hf] at h
    exact Except.noConfusion h

/-- Witness for C10 at `c10Lines`: one closed block, one block discarded
open at end of file. -/
theorem C10_energy_block_count_witness :
    (d3hspParse c10Lines).map (fun d => d.energy_snapshots.length) =
      .ok (countEnergyBlocks c10Lines) := by
  have hd : d3hspParse c10Lines = .ok c10Data := by decide
  rw [hd]
  exact congrArg Except.ok (C10_energy_block_count c10Lines c10Data hd)

/-- C4 counterexample: warning code 60000 is observed once; its
knowledge-base severity is INFO, i.e. non-critical, yet `analyze_warnings`
emits no finding at all — the rolled-up finding does not cover INFO-severity
codes, so not every observed non-critical code is covered by the rollup. -/
theorem C4_counterexample :
    (lookup_error 60000).severity = Severity.INFO ∧
    Severity.INFO ≠ Severity.CRITICAL ∧
    (analyze_warnings [(60000, 1)] [] [] [] []).2 = [] := by
  decide

end Koodyna
